import Mathlib

/-!
Verification of the RLM run-pipeline core (backend/app/rlm) against its
natural-language specification.  The Python sources are shallowly embedded:
JSON values become an inductive `Json`, dict/str Python semantics are
modelled by explicit helper functions, fallible code returns `Except`,
and external effects (SQL repository, Redis, the HTTP LLM backend, SHA-256)
are parameters of the embedded functions.
-/

namespace RlmSpec

/-- Open-brace character (U+007B). -/
def obrace : Char := Char.ofNat 123

/-- Close-brace character (U+007D). -/
def cbrace : Char := Char.ofNat 125

/-- Python `str.strip()` whitespace set, restricted to ASCII. -/
def isPyWs (c : Char) : Bool :=
  c = ' ' || c = '\t' || c = '\n' || c = '\r' || c = Char.ofNat 11 || c = Char.ofNat 12

/-- Python `s.strip()` on ASCII whitespace. -/
def pyStrip (s : String) : String :=
  String.mk ((s.data.dropWhile isPyWs).reverse.dropWhile isPyWs |>.reverse)

/-- ASCII lower-casing of a character (Python `str.lower` restricted to ASCII). -/
def asciiLower (c : Char) : Char :=
  if 'A' ≤ c ∧ c ≤ 'Z' then Char.ofNat (c.toNat + 32) else c

/-- Python `s.lower()` restricted to ASCII letters. -/
def pyLower (s : String) : String :=
  String.mk (s.data.map asciiLower)

/-- Python `s.strip().lower()` as used for backend-name normalization. -/
def normName (s : String) : String := pyLower (pyStrip s)

/-- Python list slice `xs[a:b]` with full negative-index semantics. -/
def pySliceList (xs : List Char) (a b : Int) : List Char :=
  let n : Int := (xs.length : Int)
  let a1 : Int := if a < 0 then max (n + a) 0 else min a n
  let b1 : Int := if b < 0 then max (n + b) 0 else min b n
  if b1 ≤ a1 then [] else (xs.drop a1.toNat).take (b1 - a1).toNat

/-- Python string slice `s[a:b]`. -/
def pySlice (s : String) (a b : Int) : String :=
  String.mk (pySliceList s.data a b)

/-- Python `s[:b]` (slice from the start). -/
def pySliceTo (s : String) (b : Int) : String := pySlice s 0 b

/-- Walk a suffix of the text looking for the first occurrence of `pat`;
`idx` is the absolute index of the suffix head. -/
def listFindAux (pat : List Char) : List Char → Nat → Option Nat
  | [], idx => if pat.isEmpty then some idx else none
  | c :: rest, idx =>
    if pat.isPrefixOf (c :: rest) then some idx
    else listFindAux pat rest (idx + 1)

/-- Python `text.find(pattern, cursor)`: the least index `i ≥ cursor`
where `pattern` occurs, if any. -/
def listFindFrom (text pat : List Char) (cursor : Nat) : Option Nat :=
  if cursor ≤ text.length then listFindAux pat (text.drop cursor) cursor else none

/-- Python `text.find(pattern, cursor)` (−1 becomes `none`). -/
def strFindFrom (text pat : String) (cursor : Nat) : Option Nat :=
  listFindFrom text.data pat.data cursor

/-- Lexicographic code-point comparison on strings (Python `<` on `str`). -/
def strLt : List Char → List Char → Bool
  | [], [] => false
  | [], _ :: _ => true
  | _ :: _, [] => false
  | a :: as, b :: bs =>
    if a.toNat < b.toNat then true
    else if b.toNat < a.toNat then false
    else strLt as bs

/-- `a ≤ b` on strings by code points (used for `sort_keys=True`). -/
def strLe (a b : String) : Bool := ! strLt b.data a.data

/-! ## JSON values

Python dict/list/str/int/float/bool/None values are embedded as `Json`.
Numbers are rationals: JSON integer and decimal literals convert exactly;
binary floating-point rounding is outside this model (no claim inspects a
non-integral numeric value). -/

inductive Json where
  | null : Json
  | bool (b : Bool) : Json
  | num (q : Rat) : Json
  | str (s : String) : Json
  | arr (items : List Json) : Json
  | obj (fields : List (String × Json)) : Json
  deriving Repr, Inhabited

mutual

/-- Boolean equality on `Json` (decidable equality is derived from it). -/
def jsonBeq : Json → Json → Bool
  | Json.null, Json.null => true
  | Json.bool a, Json.bool b => a == b
  | Json.num a, Json.num b => a == b
  | Json.str a, Json.str b => a == b
  | Json.arr a, Json.arr b => jsonBeqList a b
  | Json.obj a, Json.obj b => jsonBeqFields a b
  | _, _ => false

/-- Boolean equality on JSON arrays. -/
def jsonBeqList : List Json → List Json → Bool
  | [], [] => true
  | x :: xs, y :: ys => jsonBeq x y && jsonBeqList xs ys
  | _, _ => false

/-- Boolean equality on JSON object fields. -/
def jsonBeqFields : List (String × Json) → List (String × Json) → Bool
  | [], [] => true
  | p :: ps, q :: qs => (p.1 == q.1) && jsonBeq p.2 q.2 && jsonBeqFields ps qs
  | _, _ => false

end

mutual

def jsonBeq_refl : ∀ a, jsonBeq a a = true
  | Json.null => rfl
  | Json.bool a => by simp [jsonBeq]
  | Json.num a => by simp [jsonBeq]
  | Json.str a => by simp [jsonBeq]
  | Json.arr a => by simp [jsonBeq, jsonBeqList_refl a]
  | Json.obj a => by simp [jsonBeq, jsonBeqFields_refl a]

def jsonBeqList_refl : ∀ a, jsonBeqList a a = true
  | [] => rfl
  | x :: xs => by simp [jsonBeqList, jsonBeq_refl x, jsonBeqList_refl xs]

def jsonBeqFields_refl : ∀ a, jsonBeqFields a a = true
  | [] => rfl
  | p :: ps => by simp [jsonBeqFields, jsonBeq_refl p.2, jsonBeqFields_refl ps]

end

mutual

def jsonBeq_eq : ∀ a b, jsonBeq a b = true → a = b
  | Json.null, Json.null, _ => rfl
  | Json.bool a, Json.bool b, h => by simpa [jsonBeq] using h
  | Json.num a, Json.num b, h => by simpa [jsonBeq] using h
  | Json.str a, Json.str b, h => by simpa [jsonBeq] using h
  | Json.arr a, Json.arr b, h => by
      simp only [jsonBeq] at h
      exact congrArg Json.arr (jsonBeqList_eq a b h)
  | Json.obj a, Json.obj b, h => by
      simp only [jsonBeq] at h
      exact congrArg Json.obj (jsonBeqFields_eq a b h)
  | Json.null, Json.bool _, h => by simp [jsonBeq] at h
  | Json.null, Json.num _, h => by simp [jsonBeq] at h
  | Json.null, Json.str _, h => by simp [jsonBeq] at h
  | Json.null, Json.arr _, h => by simp [jsonBeq] at h
  | Json.null, Json.obj _, h => by simp [jsonBeq] at h
  | Json.bool _, Json.null, h => by simp [jsonBeq] at h
  | Json.bool _, Json.num _, h => by simp [jsonBeq] at h
  | Json.bool _, Json.str _, h => by simp [jsonBeq] at h
  | Json.bool _, Json.arr _, h => by simp [jsonBeq] at h
  | Json.bool _, Json.obj _, h => by simp [jsonBeq] at h
  | Json.num _, Json.null, h => by simp [jsonBeq] at h
  | Json.num _, Json.bool _, h => by simp [jsonBeq] at h
  | Json.num _, Json.str _, h => by simp [jsonBeq] at h
  | Json.num _, Json.arr _, h => by simp [jsonBeq] at h
  | Json.num _, Json.obj _, h => by simp [jsonBeq] at h
  | Json.str _, Json.null, h => by simp [jsonBeq] at h
  | Json.str _, Json.bool _, h => by simp [jsonBeq] at h
  | Json.str _, Json.num _, h => by simp [jsonBeq] at h
  | Json.str _, Json.arr _, h => by simp [jsonBeq] at h
  | Json.str _, Json.obj _, h => by simp [jsonBeq] at h
  | Json.arr _, Json.null, h => by simp [jsonBeq] at h
  | Json.arr _, Json.bool _, h => by simp [jsonBeq] at h
  | Json.arr _, Json.num _, h => by simp [jsonBeq] at h
  | Json.arr _, Json.str _, h => by simp [jsonBeq] at h
  | Json.arr _, Json.obj _, h => by simp [jsonBeq] at h
  | Json.obj _, Json.null, h => by simp [jsonBeq] at h
  | Json.obj _, Json.bool _, h => by simp [jsonBeq] at h
  | Json.obj _, Json.num _, h => by simp [jsonBeq] at h
  | Json.obj _, Json.str _, h => by simp [jsonBeq] at h
  | Json.obj _, Json.arr _, h => by simp [jsonBeq] at h

def jsonBeqList_eq : ∀ a b, jsonBeqList a b = true → a = b
  | [], [], _ => rfl
  | [], _ :: _, h => by simp [jsonBeqList] at h
  | _ :: _, [], h => by simp [jsonBeqList] at h
  | x :: xs, y :: ys, h => by
      simp only [jsonBeqList, Bool.and_eq_true] at h
      exact by rw [jsonBeq_eq x y h.1, jsonBeqList_eq xs ys h.2]

def jsonBeqFields_eq : ∀ a b, jsonBeqFields a b = true → a = b
  | [], [], _ => rfl
  | [], _ :: _, h => by simp [jsonBeqFields] at h
  | _ :: _, [], h => by simp [jsonBeqFields] at h
  | p :: ps, q :: qs, h => by
      simp only [jsonBeqFields, Bool.and_eq_true, beq_iff_eq] at h
      have h1 : p = q := Prod.ext h.1.1 (jsonBeq_eq p.2 q.2 h.1.2)
      rw [h1, jsonBeqFields_eq ps qs h.2]

end

instance : DecidableEq Json := fun a b =>
  if h : jsonBeq a b = true then isTrue (jsonBeq_eq a b h)
  else isFalse (fun e => h (e ▸ jsonBeq_refl a))

/-- Integer shorthand. -/
def Json.int (n : Int) : Json := Json.num (Rat.ofInt n)

/-- `d.get(k)` on an object: first binding wins (keys are unique after
`objSet`-style construction, matching Python dict insertion semantics). -/
def Json.get : Json → String → Option Json
  | Json.obj fields, k => fields.lookup k
  | _, _ => none

/-- Python `d.get(k)` with its `None` default. -/
def Json.getPy (j : Json) (k : String) : Json := (j.get k).getD Json.null

/-- Python `d.get(k, default)`. -/
def Json.getPyD (j : Json) (k : String) (d : Json) : Json := (j.get k).getD d

/-- Insert-or-overwrite a key in an assoc list, keeping the position of an
existing key (Python `d[k] = v` on an ordered dict with unique keys). -/
def objSetFields : List (String × Json) → String → Json → List (String × Json)
  | [], k, v => [(k, v)]
  | p :: ps, k, v => if p.1 = k then (k, v) :: ps else p :: objSetFields ps k v

/-- `d[k] = v` on an object (other shapes untouched). -/
def Json.objSet (j : Json) (k : String) (v : Json) : Json :=
  match j with
  | Json.obj fields => Json.obj (objSetFields fields k v)
  | other => other

/-- A numeric rational is rendered exactly when integral; the non-integral
rendering is a placeholder (Python float `repr` is binary-float specific
and no claim serializes a non-integral number). -/
def ratRender (q : Rat) : String :=
  if q.den = 1 then toString q.num else toString q.num ++ "/" ++ toString q.den

/-- Python truthiness (`if not value`) on embedded values. -/
def Json.pyFalsy : Json → Bool
  | Json.null => true
  | Json.bool b => !b
  | Json.num q => q = 0
  | Json.str s => s.isEmpty
  | Json.arr items => items.isEmpty
  | Json.obj fields => fields.isEmpty

/-- Python truthiness. -/
def Json.pyTruthy (j : Json) : Bool := ! j.pyFalsy

/-- Python `a or b` on values. -/
def Json.pyOr (a b : Json) : Json := if a.pyTruthy then a else b

/-- Python `str(value)` for scalars; containers use a simplified `repr`
(only reached by diagnostic interpolations, never by a claim). -/
def Json.pyStr : Json → String
  | Json.null => "None"
  | Json.bool b => if b then "True" else "False"
  | Json.num q => ratRender q
  | Json.str s => s
  | Json.arr _ => "[...]"
  | Json.obj _ => "\x7b...\x7d"

/-- Python `int(value)` used by `_safe_int`: bools and integral numbers
convert, numeric strings parse, floats truncate toward zero; anything else
raises (`none`). -/
def Json.pyToInt : Json → Option Int
  | Json.bool b => some (if b then 1 else 0)
  | Json.num q => some (Int.tdiv q.num ((q.den : Int)))
  | Json.str s =>
    let t := pyStrip s
    let core := if t.startsWith "-" ∨ t.startsWith "+" then (pySlice t 1 ((t.length : Int))) else t
    if core.isEmpty ∨ core.data.any (fun c => !c.isDigit) then none
    else
      let mag : Int := ((core.data.foldl (fun acc c => acc * 10 + (c.toNat - 48)) 0 : Nat) : Int)
      some (if t.startsWith "-" then -mag else mag)
  | _ => none

/-! ## `json.dumps`

Faithful rendering for the value shapes the pipeline serializes.  Two
configurations appear in the source: canonical
(`sort_keys=True, ensure_ascii=False, separators=(",", ":")`) for cache
keys, and the default (`ensure_ascii=True`, separators `", "`/`": "`). -/

/-- Lowercase hex digit. -/
def hexDigit (n : Nat) : Char :=
  if n < 10 then Char.ofNat (48 + n) else Char.ofNat (87 + n)

/-- Four-digit lowercase hex rendering (for `\uXXXX` escapes). -/
def hex4 (n : Nat) : String :=
  String.mk [hexDigit (n / 4096 % 16), hexDigit (n / 256 % 16),
             hexDigit (n / 16 % 16), hexDigit (n % 16)]

/-- One character of a JSON string literal as `json.dumps` renders it. -/
def jsonEscChar (ensureAscii : Bool) (c : Char) : String :=
  if c = '"' then "\\\""
  else if c = '\\' then "\\\\"
  else if c = '\n' then "\\n"
  else if c = '\t' then "\\t"
  else if c = '\r' then "\\r"
  else if c = Char.ofNat 8 then "\\b"
  else if c = Char.ofNat 12 then "\\f"
  else if c.toNat < 32 then "\\u" ++ hex4 c.toNat
  else if ensureAscii ∧ c.toNat > 126 then
    if c.toNat ≤ 65535 then "\\u" ++ hex4 c.toNat
    else
      let v := c.toNat - 65536
      "\\u" ++ hex4 (55296 + v / 1024) ++ "\\u" ++ hex4 (56320 + v % 1024)
  else String.singleton c

/-- A JSON string literal as `json.dumps` renders it. -/
def jsonQuote (ensureAscii : Bool) (s : String) : String :=
  "\"" ++ String.join (s.data.map (jsonEscChar ensureAscii)) ++ "\""

/-- Stable insertion into a `le`-sorted list (equal keys keep first-seen
order, like Python `sorted`). -/
def insertStable (le : α → α → Bool) (x : α) : List α → List α
  | [] => [x]
  | y :: ys => if le y x then y :: insertStable le x ys else x :: y :: ys

/-- Stable sort by repeated insertion (Python `sorted`). -/
def sortStable (le : α → α → Bool) (xs : List α) : List α :=
  xs.foldl (fun acc x => insertStable le x acc) []

mutual

/-- `json.dumps(value)`; `compact` selects separators `(",", ":")`
(`(", ", ": ")` otherwise), `sortKeys` and `ensureAscii` match the keyword
arguments of the same names.  Non-integral numbers use the placeholder
rendering of `ratRender` (Python re-renders floats; no claim serializes
one). -/
def jsonDumps (sortKeys compact ensureAscii : Bool) : Json → String
  | Json.null => "null"
  | Json.bool b => if b then "true" else "false"
  | Json.num q => ratRender q
  | Json.str s => jsonQuote ensureAscii s
  | Json.arr items =>
    let sep := if compact then "," else ", "
    "[" ++ String.intercalate sep (jsonDumpsList sortKeys compact ensureAscii items) ++ "]"
  | Json.obj fields =>
    let sep := if compact then "," else ", "
    let rendered := jsonDumpsFields sortKeys compact ensureAscii fields
    let rendered := if sortKeys then sortStable (fun a b => strLe a.1 b.1) rendered else rendered
    String.singleton obrace ++ String.intercalate sep (rendered.map Prod.snd)
      ++ String.singleton cbrace

/-- Rendered elements of a JSON array. -/
def jsonDumpsList (sortKeys compact ensureAscii : Bool) : List Json → List String
  | [] => []
  | x :: xs =>
    jsonDumps sortKeys compact ensureAscii x :: jsonDumpsList sortKeys compact ensureAscii xs

/-- Rendered `"key": value` members, each paired with its raw key so the
object case can apply `sort_keys`. -/
def jsonDumpsFields (sortKeys compact ensureAscii : Bool) :
    List (String × Json) → List (String × String)
  | [] => []
  | (k, v) :: fs =>
    let kvSep := if compact then ":" else ": "
    (k, jsonQuote ensureAscii k ++ kvSep ++ jsonDumps sortKeys compact ensureAscii v)
      :: jsonDumpsFields sortKeys compact ensureAscii fs

end

/-- `json.dumps(x, sort_keys=True, ensure_ascii=False, separators=(",", ":"))` —
the canonical serialization used for glimpse ids and cache keys. -/
def jsonCanonical (j : Json) : String := jsonDumps true true false j

/-- `json.dumps(x)` with all defaults (used by `_estimate_program_chars`). -/
def jsonDumpsDefault (j : Json) : String := jsonDumps false false true j

/-! ## `json.loads`

A strict JSON reader mirroring Python's `json.loads` (`strict=True`,
default hooks): `none` is `json.JSONDecodeError`.  The value recursion is
fuel-bounded; the initial fuel `2·|input| + 2` dominates the recursion
depth, since every nested call consumes at least one character.  The
non-finite literals `NaN`/`Infinity` (floats) are outside the model. -/

/-- JSON insignificant whitespace. -/
def skipJWs (cs : List Char) : List Char :=
  cs.dropWhile (fun c => c = ' ' || c = '\t' || c = '\n' || c = '\r')

/-- Value of a hex digit, if it is one. -/
def hexVal? (c : Char) : Option Nat :=
  if '0' ≤ c ∧ c ≤ '9' then some (c.toNat - 48)
  else if 'a' ≤ c ∧ c ≤ 'f' then some (c.toNat - 87)
  else if 'A' ≤ c ∧ c ≤ 'F' then some (c.toNat - 70)
  else none

/-- `\uXXXX` payload: four hex digits. -/
def hex4Val? (a b c d : Char) : Option Nat := do
  let va ← hexVal? a
  let vb ← hexVal? b
  let vc ← hexVal? c
  let vd ← hexVal? d
  pure (va * 4096 + vb * 256 + vc * 16 + vd)

/-- Scalar for a decoded code unit; lone surrogates (which Python keeps as
unpaired `str` code points) are replaced by U+FFFD, as `Char` requires a
scalar value.  No claim decodes a lone surrogate. -/
def charOfUnit (n : Nat) : Char :=
  if 55296 ≤ n ∧ n ≤ 57343 then Char.ofNat 65533 else Char.ofNat n

/-- Body of a JSON string literal after the opening quote: strict mode, the
eight simple escapes, `\uXXXX` with surrogate-pair combination.  Every call
consumes at least one character, so fuel `|input| + 1` dominates the
recursion; it is threaded structurally to keep the definition
kernel-reducible. -/
def parseJStringBody : Nat → List Char → List Char → Option (String × List Char)
  | 0, _, _ => none
  | _ + 1, acc, '"' :: rest => some (String.mk acc.reverse, rest)
  | fuel + 1, acc, '\\' :: 'u' :: h1 :: h2 :: h3 :: h4 :: rest =>
    match hex4Val? h1 h2 h3 h4 with
    | none => none
    | some hi =>
      match rest with
      | '\\' :: 'u' :: g1 :: g2 :: g3 :: g4 :: rest2 =>
        if 55296 ≤ hi ∧ hi ≤ 56319 then
          match hex4Val? g1 g2 g3 g4 with
          | some lo =>
            if 56320 ≤ lo ∧ lo ≤ 57343 then
              parseJStringBody fuel
                (Char.ofNat (65536 + (hi - 55296) * 1024 + (lo - 56320)) :: acc) rest2
            else parseJStringBody fuel (charOfUnit lo :: charOfUnit hi :: acc) rest2
          | none => none
        else
          parseJStringBody fuel (charOfUnit hi :: acc)
            ('\\' :: 'u' :: g1 :: g2 :: g3 :: g4 :: rest2)
      | other => parseJStringBody fuel (charOfUnit hi :: acc) other
  | fuel + 1, acc, '\\' :: e :: rest =>
    if e = '"' then parseJStringBody fuel ('"' :: acc) rest
    else if e = '\\' then parseJStringBody fuel ('\\' :: acc) rest
    else if e = '/' then parseJStringBody fuel ('/' :: acc) rest
    else if e = 'b' then parseJStringBody fuel (Char.ofNat 8 :: acc) rest
    else if e = 'f' then parseJStringBody fuel (Char.ofNat 12 :: acc) rest
    else if e = 'n' then parseJStringBody fuel ('\n' :: acc) rest
    else if e = 'r' then parseJStringBody fuel ('\r' :: acc) rest
    else if e = 't' then parseJStringBody fuel ('\t' :: acc) rest
    else none
  | fuel + 1, acc, c :: rest =>
    if c.toNat < 32 then none else parseJStringBody fuel (c :: acc) rest
  | _ + 1, _, [] => none

/-- Greedy digit run. -/
def takeDigits (cs : List Char) : List Char × List Char :=
  (cs.takeWhile Char.isDigit, cs.dropWhile Char.isDigit)

/-- Numeric value of a digit run. -/
def digitsVal (ds : List Char) : Nat :=
  ds.foldl (fun acc c => acc * 10 + (c.toNat - 48)) 0

/-- The JSON `NUMBER_RE` match at the head of the input, converted exactly
to a rational (`-?(0|[1-9]\d*)(\.\d+)?([eE][+-]?\d+)?`). -/
def parseJNumber : List Char → Option (Rat × List Char)
  | cs =>
    let (neg, cs1) := match cs with
      | '-' :: rest => (true, rest)
      | rest => (false, rest)
    match cs1 with
    | c :: rest =>
      if ¬ c.isDigit then none
      else
        let (intDs, cs2) :=
          if c = '0' then ([c], rest)
          else takeDigits (c :: rest)
        let (fracDs, cs3) := match cs2 with
          | '.' :: r =>
            let (ds, r2) := takeDigits r
            if ds.isEmpty then ([], cs2) else (ds, r2)
          | _ => ([], cs2)
        let (expVal, cs4) : Option Int × List Char := match cs3 with
          | e :: r =>
            if e = 'e' ∨ e = 'E' then
              let (esign, r2) : Bool × List Char := match r with
                | '+' :: r3 => (false, r3)
                | '-' :: r3 => (true, r3)
                | r3 => (false, r3)
              let (ds, r4) := takeDigits r2
              if ds.isEmpty then (none, cs3)
              else (some (if esign then -(((digitsVal ds : Int))) else ((digitsVal ds : Int))), r4)
            else (none, cs3)
          | _ => (none, cs3)
        let digits : Int := ((digitsVal (intDs ++ fracDs) : Nat) : Int)
        let signedDigits : Int := if neg then -digits else digits
        let totalExp : Int := (expVal.getD 0) - (fracDs.length : Int)
        let scaled : Rat :=
          if totalExp ≥ 0 then
            Rat.ofInt (signedDigits * ((10 ^ totalExp.toNat : Int)))
          else mkRat signedDigits (10 ^ (-totalExp).toNat)
        some (scaled, cs4)
    | [] => none

mutual

/-- One JSON value at the head of the input (whitespace already skipped). -/
def parseJValue : Nat → List Char → Option (Json × List Char)
  | 0, _ => none
  | _ + 1, [] => none
  | fuel + 1, c :: rest =>
    if c = '"' then
      match parseJStringBody (rest.length + 1) [] rest with
      | some (s, rest2) => some (Json.str s, rest2)
      | none => none
    else if c = obrace then parseJObject fuel (skipJWs rest) []
    else if c = '[' then parseJArray fuel (skipJWs rest) []
    else if c = 't' then
      match rest with
      | 'r' :: 'u' :: 'e' :: rest2 => some (Json.bool true, rest2)
      | _ => none
    else if c = 'f' then
      match rest with
      | 'a' :: 'l' :: 's' :: 'e' :: rest2 => some (Json.bool false, rest2)
      | _ => none
    else if c = 'n' then
      match rest with
      | 'u' :: 'l' :: 'l' :: rest2 => some (Json.null, rest2)
      | _ => none
    else
      match parseJNumber (c :: rest) with
      | some (q, rest2) => some (Json.num q, rest2)
      | none => none

/-- Members of an object, after `{` (leading whitespace skipped); later
duplicate keys overwrite in place, as successive dict assignment does. -/
def parseJObject (fuel : Nat) (cs : List Char) (acc : List (String × Json)) :
    Option (Json × List Char) :=
  match fuel, cs with
  | 0, _ => none
  | _ + 1, [] => none
  | fuel + 1, c :: rest =>
    if c = cbrace ∧ acc.isEmpty then some (Json.obj [], rest)
    else
      match (if c = '"' then parseJStringBody (rest.length + 1) [] rest else none) with
      | none => none
      | some (k, rest2) =>
        match skipJWs rest2 with
        | ':' :: rest3 =>
          match parseJValue fuel (skipJWs rest3) with
          | none => none
          | some (v, rest4) =>
            let acc2 := objSetFields acc k v
            match skipJWs rest4 with
            | ',' :: rest5 =>
              match skipJWs rest5 with
              | c2 :: rest6 =>
                if c2 = '"' then parseJObjectMore fuel (c2 :: rest6) acc2 else none
              | [] => none
            | c2 :: rest5 =>
              if c2 = cbrace then some (Json.obj acc2, rest5) else none
            | [] => none
        | _ => none

/-- Continuation of an object after a comma (next member must start). -/
def parseJObjectMore (fuel : Nat) (cs : List Char) (acc : List (String × Json)) :
    Option (Json × List Char) :=
  match fuel, cs with
  | 0, _ => none
  | _ + 1, [] => none
  | fuel + 1, '"' :: rest =>
    match parseJStringBody (rest.length + 1) [] rest with
    | none => none
    | some (k, rest2) =>
      match skipJWs rest2 with
      | ':' :: rest3 =>
        match parseJValue fuel (skipJWs rest3) with
        | none => none
        | some (v, rest4) =>
          let acc2 := objSetFields acc k v
          match skipJWs rest4 with
          | ',' :: rest5 =>
            match skipJWs rest5 with
            | c2 :: rest6 =>
              if c2 = '"' then parseJObjectMore fuel (c2 :: rest6) acc2 else none
            | [] => none
          | c2 :: rest5 =>
            if c2 = cbrace then some (Json.obj acc2, rest5) else none
          | [] => none
      | _ => none
  | _ + 1, _ => none

/-- Elements of an array, after `[` (leading whitespace skipped). -/
def parseJArray (fuel : Nat) (cs : List Char) (acc : List Json) :
    Option (Json × List Char) :=
  match fuel, cs with
  | 0, _ => none
  | _ + 1, [] => none
  | fuel + 1, c :: rest =>
    if c = ']' ∧ acc.isEmpty then some (Json.arr [], rest)
    else
      match parseJValue fuel (c :: rest) with
      | none => none
      | some (v, rest2) =>
        let acc2 := acc ++ [v]
        match skipJWs rest2 with
        | ',' :: rest3 => parseJArray fuel (skipJWs rest3) acc2
        | c2 :: rest3 =>
          if c2 = ']' then some (Json.arr acc2, rest3) else none
        | [] => none

end

/-- `json.loads(s)`: decode one document, then require only whitespace
after it (`Extra data` otherwise). -/
def jsonLoads (s : String) : Option Json :=
  match parseJValue (2 * s.length + 2) (skipJWs s.data) with
  | some (v, rest) => if (skipJWs rest).isEmpty then some v else none
  | none => none

/-! ## Tolerant model-output parsing (`run_pipeline._extract_json_payload`) -/

/-- Capture group of `_JSON_FENCE_RE.search`, the code-fence pattern
(open fence, optional case-insensitive `json` tag, greedy whitespace,
lazy capture, close fence) with DOTALL and IGNORECASE.  A match must start
at a backtick fence; the optional `json` tag and the whitespace run contain
no backticks, so the first fence start together with the first later fence
close is the regex's leftmost match and no backtracking can differ. -/
def fenceGroup (s : String) : Option String :=
  match strFindFrom s "```" 0 with
  | none => none
  | some i =>
    let afterOpen := s.data.drop (i + 3)
    let afterTag :=
      if (afterOpen.take 4).map asciiLower = "json".data then afterOpen.drop 4 else afterOpen
    let afterWs := afterTag.dropWhile isPyWs
    match listFindFrom afterWs "```".data 0 with
    | none => none
    | some j => some (String.mk (afterWs.take j))

/-- Match of `re.search(r"\{.*\}", cleaned, re.DOTALL)`: greedy, so from
the first open brace to the last close brace, when these nest. -/
def braceBlock (s : String) : Option String :=
  match s.data.findIdx? (fun c => c = obrace) with
  | none => none
  | some i =>
    match s.data.reverse.findIdx? (fun c => c = cbrace) with
    | none => none
    | some jr =>
      let j := s.data.length - 1 - jr
      if i < j then some (String.mk ((s.data.drop i).take (j - i + 1))) else none

/-- `_extract_json_payload` (run_pipeline.py).  The second `json.loads`,
applied to the brace-extracted substring, is not guarded: its
`JSONDecodeError` escapes, modelled as `Except.error`. -/
def extract_json_payload (text : String) : Except String (Option Json) :=
  let cleaned := pyStrip text
  if cleaned.isEmpty then Except.ok none
  else
    let cleaned2 := match fenceGroup cleaned with
      | some g => pyStrip g
      | none => cleaned
    match jsonLoads cleaned2 with
    | some j => Except.ok (some j)
    | none =>
      match braceBlock cleaned2 with
      | some sub =>
        match jsonLoads sub with
        | some j => Except.ok (some j)
        | none => Except.error "json.decoder.JSONDecodeError"
      | none => Except.ok none

/-! ## Glimpse cache keys (`adapters/cache.py`, `services/examine.py`)

`sha256Hex` stands for `hashlib.sha256(payload.encode("utf-8")).hexdigest()`
and is a parameter of the model; every theorem about keys holds for all
values of it. -/

/-- `make_glimpse_key` as defined in `adapters/cache.py`: three positional
arguments, hashing only the canonical `spec`. -/
def make_glimpse_key (sha256Hex : String → String)
    (artifact_id content_hash : String) (spec : Json) : String :=
  "rlm:glimpse:" ++ artifact_id ++ ":" ++ content_hash ++ ":"
    ++ sha256Hex (jsonCanonical spec)

/-- `_make_glimpse_id` from `services/examine.py`: SHA-256 of the canonical
JSON of the three-field object. -/
def make_glimpse_id (sha256Hex : String → String)
    (artifact_id content_hash : String) (spec : Json) : String :=
  sha256Hex (jsonCanonical (Json.obj
    [("artifact_id", Json.str artifact_id),
     ("content_hash", Json.str content_hash),
     ("spec", spec)]))

/-- Modelled from the spec: the two-argument glimpse cache key
`rlm:glimpse:{run_id}:{glimpse_id}` that `examine.py:129` and
`repl_executor.py:385` call `make_glimpse_key(run_id, glimpse_id)` for;
`cache.py` defines no such two-argument function. -/
def make_glimpse_key_spec (run_id glimpse_id : String) : String :=
  "rlm:glimpse:" ++ run_id ++ ":" ++ glimpse_id

/-! ## HTTP-chat retry loop (`adapters/inference_vllm.py`) -/

/-- `RetryPolicy` (timeouts and backoff durations are exact rationals in
the model; they are only compared, never computed with). -/
structure RetryPolicy where
  timeout_s : Rat := 20
  max_retries : Nat := 1
  backoff_s : Rat := mkRat 1 2
  deriving Repr, DecidableEq

/-- One caught failure of an attempt of `_post_json` (the `except` clause):
`isTimeout` is `isinstance(exc, TimeoutError) or "timed out" in str(exc)`,
`httpCode` is the `HTTPError` status when the failure is an HTTP error
(`none` for network/`URLError` and response-decoding `ValueError`). -/
structure HttpFailure where
  isTimeout : Bool
  httpCode : Option Nat
  msg : String
  deriving Repr, DecidableEq

/-- Observable actions of `_post_json`: issuing attempt `i`, or
`time.sleep(backoff_s)`. -/
inductive PostAction where
  | attempt (i : Nat)
  | sleep (backoff_s : Rat)
  deriving Repr, DecidableEq

/-- The composite error raised after the loop
(`RuntimeError(f"vLLM chat.completions failed after retries: {last_error}")`),
wrapping the last underlying failure. -/
def compositeError (lastError : Option HttpFailure) : String × Option HttpFailure :=
  ("vLLM chat.completions failed after retries: "
    ++ (match lastError with | some e => e.msg | none => "None"), lastError)

/-- The `for attempt in range(max_retries + 1)` body of `_post_json`.
`oracle i` is the outcome of the `i`-th network attempt (request, read and
JSON-decode of the body bundled).  Returns the result and the ordered
action trace. -/
def postJsonLoop (retry : RetryPolicy) (oracle : Nat → Except HttpFailure Json)
    (lastError : Option HttpFailure) (attempt : Nat) :
    Nat → (Except (String × Option HttpFailure) Json) × List PostAction
  | 0 => (Except.error (compositeError lastError), [])
  | remaining + 1 =>
    match oracle attempt with
    | Except.ok response => (Except.ok response, [PostAction.attempt attempt])
    | Except.error e =>
      if e.isTimeout then
        (Except.error (compositeError (some e)), [PostAction.attempt attempt])
      else if e.httpCode.elim false (fun code => decide (code < 500)) then
        (Except.error (compositeError (some e)), [PostAction.attempt attempt])
      else if retry.max_retries ≤ attempt then
        (Except.error (compositeError (some e)), [PostAction.attempt attempt])
      else
        let (res, trace) := postJsonLoop retry oracle (some e) (attempt + 1) remaining
        (res, PostAction.attempt attempt :: PostAction.sleep retry.backoff_s :: trace)

/-- `VllmChatCompletionsClient._post_json`'s retry behaviour. -/
def postJson (retry : RetryPolicy) (oracle : Nat → Except HttpFailure Json) :
    (Except (String × Option HttpFailure) Json) × List PostAction :=
  postJsonLoop retry oracle none 0 (retry.max_retries + 1)

/-! ## Retrieval tokenization (`services/retrieval.py`) -/

/-- Character class `[A-Za-z0-9_]` of `_WORD_PATTERN`. -/
def isWordChar (c : Char) : Bool :=
  ('A' ≤ c ∧ c ≤ 'Z') ∨ ('a' ≤ c ∧ c ≤ 'z') ∨ ('0' ≤ c ∧ c ≤ '9') ∨ c = '_'

/-- CJK block U+4E00–U+9FFF of `_CJK_PATTERN`. -/
def isCjkChar (c : Char) : Bool := 19968 ≤ c.toNat ∧ c.toNat ≤ 40959

/-- Accumulator pass of `runsBy`; `current` holds the run in progress,
reversed. -/
def runsByGo (p : Char → Bool) (current : List Char) : List Char → List (List Char)
  | [] => if current.isEmpty then [] else [current.reverse]
  | c :: rest =>
    if p c then runsByGo p (c :: current) rest
    else (if current.isEmpty then [] else [current.reverse]) ++ runsByGo p [] rest

/-- Maximal runs of characters satisfying `p` (`re.findall` of `cls+`). -/
def runsBy (p : Char → Bool) (cs : List Char) : List (List Char) :=
  runsByGo p [] cs

/-- Left of the camel-boundary lookbehind `[a-z0-9]`. -/
def isCamelLower (c : Char) : Bool := ('a' ≤ c ∧ c ≤ 'z') ∨ ('0' ≤ c ∧ c ≤ '9')

/-- Right of the camel-boundary lookahead `[A-Z]`. -/
def isCamelUpper (c : Char) : Bool := 'A' ≤ c ∧ c ≤ 'Z'

/-- Split at each `(?<=[a-z0-9])(?=[A-Z])` boundary; `acc` holds the
current segment reversed. -/
def camelSplitGo (acc : List Char) : List Char → List (List Char)
  | [] => [acc.reverse]
  | c :: rest =>
    match acc with
    | p :: _ =>
      if isCamelLower p ∧ isCamelUpper c then acc.reverse :: camelSplitGo [c] rest
      else camelSplitGo (c :: acc) rest
    | [] => camelSplitGo [c] rest

/-- `_CAMEL_BOUNDARY.split(part)`. -/
def camelSplit (part : String) : List String :=
  (camelSplitGo [] part.data).map String.mk

/-- `_iter_word_tokens`: ASCII word runs, split on `_` (empty parts
skipped), then at camelCase boundaries (empty segments skipped). -/
def iterWordTokens (q : String) : List String :=
  (runsBy isWordChar q.data).flatMap (fun run =>
    ((String.mk run).splitOn "_").flatMap (fun part =>
      if part.isEmpty then []
      else (camelSplit part).filter (fun seg => !seg.isEmpty)))

/-- `_iter_cjk_tokens`: a CJK run of length ≤ 2 is emitted whole, longer
runs emit every length-2 sliding window. -/
def iterCjkTokens (q : String) : List String :=
  (runsBy isCjkChar q.data).flatMap (fun run =>
    if run.length ≤ 2 then [String.mk run]
    else (List.range (run.length - 1)).map (fun i => String.mk ((run.drop i).take 2)))

/-- `_build_tokens(query, max_tokens=12)`: word tokens first with an early
return at the cap, then CJK tokens up to the cap, then the stripped-query
fallback, then the final `[:max_tokens]` slice. -/
def build_tokens (q : String) (maxTokens : Nat := 12) : List String :=
  let tokens := (iterWordTokens q).take maxTokens
  let tokens :=
    if tokens.length < maxTokens then
      tokens ++ (iterCjkTokens q).take (maxTokens - tokens.length)
    else tokens
  let tokens :=
    if tokens.isEmpty then
      (if (pyStrip q).isEmpty then [] else [pyStrip q])
    else tokens
  tokens.take maxTokens

/-! ## Domain model (`domain/models.py`)

Float-valued fields (`weight`, `base_score`) are exact rationals; no claim
exercises binary-float rounding. -/

/-- `Candidate` (pydantic model; the second `content_hash` annotation in
the source wins, making it optional with default `None`). -/
structure Candidate where
  artifact_id : String
  scope : String := "session"
  type : String := "note"
  title : Option String := none
  pinned : Bool := false
  weight : Rat := 1
  source : String := "manual"
  content_preview : String := ""
  content_hash : Option String := none
  token_estimate : Option Int := none
  base_score : Rat := 0
  score_breakdown : Json := Json.obj []
  deriving Repr, DecidableEq

/-- `CandidateIndex`. -/
structure CandidateIndex where
  session_id : String
  project_id : String
  query : String
  candidates : List Candidate
  deriving Repr, DecidableEq

/-! ## Pipeline executor (`services/pipeline_executor.py`) -/

/-- `PipelineExecutorLimits`. -/
structure PipelineExecutorLimits where
  max_steps : Nat := 32
  max_event_errors : Nat := 3
  max_glimpse_chars : Int := 2000
  max_grep_hits : Int := 5
  deriving Repr, DecidableEq

/-- `_safe_int(value, default)`. -/
def safe_int (value : Json) (default : Int) : Int :=
  (value.pyToInt).getD default

/-- `_extract_head(text, n)`. -/
def extract_head (text : String) (n : Int) : String × Json :=
  let excerpt := pySliceTo text n
  (excerpt, Json.obj [("mode", Json.str "head"), ("start", Json.int 0),
                      ("end", Json.int ((excerpt.length : Int)))])

/-- `_extract_range(text, start, end)`: `start` is clamped below at zero
only, `end` is replaced by `len(text)` when non-positive or too large, the
bounds are swapped when inverted, and the Python slice is returned. -/
def extract_range (text : String) (start0 end0 : Int) : String × Json :=
  let start1 := if start0 < 0 then 0 else start0
  let end1 := if end0 ≤ 0 ∨ end0 > (text.length : Int) then (text.length : Int) else end0
  let (start2, end2) := if end1 < start1 then (end1, start1) else (start1, end1)
  (pySlice text start2 end2,
   Json.obj [("mode", Json.str "range"), ("start", Json.int start2), ("end", Json.int end2)])

/-- Modelled from the spec's words for comparison with `extract_range`
(claim C8): clamp `start` into `[0, len(text)]` — above as well as below —
replace `end` by `len(text)` when non-positive or too large, swap when
inverted, return the slice with the span. -/
def extract_range_claimed (text : String) (start0 end0 : Int) : String × Json :=
  let n : Int := (text.length : Int)
  let start1 := max 0 (min start0 n)
  let end1 := if end0 ≤ 0 ∨ end0 > n then n else end0
  let (start2, end2) := if end1 < start1 then (end1, start1) else (start1, end1)
  (pySlice text start2 end2,
   Json.obj [("mode", Json.str "range"), ("start", Json.int start2), ("end", Json.int end2)])

/-- The `while len(spans) < max_hits` match loop of `_extract_grep`; the
cursor advances by at least `len(pattern) ≥ 1` per hit, so fuel
`len(text) + 2` dominates the iteration count. -/
def grepLoop (text pattern : List Char) (window maxHits : Int) :
    Nat → List (Int × Int) → Nat → List (Int × Int)
  | _, spans, 0 => spans
  | cursor, spans, fuel + 1 =>
    if ((spans.length : Int)) < maxHits then
      match listFindFrom text pattern cursor with
      | none => spans
      | some idx =>
        let s := max 0 ((idx : Int) - window)
        let e := min ((text.length : Int)) ((idx : Int) + (pattern.length : Int) + window)
        grepLoop text pattern window maxHits (idx + pattern.length) (spans ++ [(s, e)]) fuel
    else spans

/-- `_extract_grep(text, pattern, window, max_hits)`. -/
def extract_grep (text pattern : String) (window maxHits : Int) : String × Json :=
  if pattern.isEmpty then
    ("", Json.obj [("mode", Json.str "grep"), ("pattern", Json.str pattern),
                   ("matches", Json.int 0)])
  else
    let spans := grepLoop text.data pattern.data window maxHits 0 [] (text.length + 2)
    let excerpts := spans.map (fun p => pySlice text p.1 p.2)
    let merged := String.intercalate "\n...\n" excerpts
    (merged,
     Json.obj [("mode", Json.str "grep"), ("pattern", Json.str pattern),
               ("matches", Json.int ((spans.length : Int))),
               ("window", Json.int window),
               ("spans", Json.arr (spans.map (fun p =>
                 Json.obj [("start", Json.int p.1), ("end", Json.int p.2)])))])

/-- `_pick_candidate_text` on a `Candidate` object (not a `Mapping`): of
the probed attributes only `content_preview` exists, and it must be a
non-empty string. -/
def pick_candidate_text (candidate : Option Candidate) : Option String :=
  match candidate with
  | none => none
  | some c => if c.content_preview.isEmpty then none else some c.content_preview

/-- The SQL repository surface the executor touches
(`RlmRepoSQL.get_artifact_text` / `get_artifact_metadata`); the argument is
the raw `artifact_id` value from the step and either call may raise. -/
structure ExecRepo where
  get_artifact_text : Json → Except String (Option String)
  get_artifact_metadata : Json → Except String Json

/-- Result object of `repl_env.run` (`getattr` defaults in the source). -/
structure ReplResult where
  stdout : Json := Json.str ""
  stderr : Json := Json.str ""
  exception : Json := Json.null
  duration_ms : Json := Json.null
  vars : Json := Json.null
  deriving Repr

/-- Executor environment: constructor arguments plus the SHA-256 and
float-conversion externals. -/
structure PipeEnv where
  repo : Option ExecRepo := none
  replEnv : Option (String → Rat → List (String × Json) → Except String ReplResult) := none
  limits : PipelineExecutorLimits := {}
  sha256Hex : String → String

/-- `float(value)` of `repl`'s `timeout_s` (`or 1.0` applied first by the
caller): numbers and bools convert; a numeric string parses (exponents
unsupported here — unreached by any claim); otherwise `ValueError`. -/
def pyToFloat : Json → Option Rat
  | Json.num q => some q
  | Json.bool b => some (if b then 1 else 0)
  | Json.str s =>
    let t := pyStrip s
    let (neg, core) :=
      if t.startsWith "-" then (true, pySlice t 1 ((t.length : Int)))
      else if t.startsWith "+" then (false, pySlice t 1 ((t.length : Int)))
      else (false, t)
    let (ip, fp) := (core.data.takeWhile Char.isDigit, core.data.dropWhile Char.isDigit)
    let frac : Option (List Char) := match fp with
      | [] => some []
      | '.' :: ds => if ds.all Char.isDigit then some ds else none
      | _ => none
    match frac with
    | none => none
    | some ds =>
      if ip.isEmpty ∧ ds.isEmpty then none
      else
        let digits : Int := ((digitsVal (ip ++ ds) : Nat) : Int)
        some (mkRat (if neg then -digits else digits) (10 ^ ds.length))
  | _ => none

/-- `dict.update(other)` on an assoc-list dict: existing keys are
overwritten in place, new keys appended in order. -/
def varsUpdate (vars : List (String × Json)) : List (String × Json) → List (String × Json)
  | [] => vars
  | (k, v) :: rest => varsUpdate (objSetFields vars k v) rest

/-- `dict(value)` for `dict(options.get("vars") or {})`: a dict copies; a
list of two-element entries converts; everything else raises. -/
def pyDictOf : Json → Except String (List (String × Json))
  | Json.obj fields => Except.ok fields
  | Json.arr items =>
    items.foldlM (fun acc item =>
      match item with
      | Json.arr [Json.str k, v] => Except.ok (objSetFields acc k v)
      | _ => Except.error "TypeError: cannot convert to dict") []
  | _ => Except.error "TypeError: cannot convert to dict"

/-- `PipelineExecutor._extract_steps(program)`. -/
def extract_steps (program : Json) : List Json :=
  match program with
  | Json.null => []
  | Json.arr items => items.filter (fun s => match s with | Json.obj _ => true | _ => false)
  | Json.obj fields =>
    match (Json.obj fields).get "steps" with
    | some (Json.arr items) =>
      items.filter (fun s => match s with | Json.obj _ => true | _ => false)
    | _ => [Json.obj fields]
  | _ => []

/-- Success data of one executed step: updated pvars, glimpses to
append, and the emitted `ok` event. -/
structure StepDelta where
  pvars : List (String × Json)
  newGlimpses : List Json
  event : Json

/-- The `try` body for one step of `PipelineExecutor.execute` (the matched
`action` is already normalized).  `Except.error` is the caught per-step
exception's message. -/
def execStep (env : PipeEnv) (candidates : List Candidate)
    (pvars : List (String × Json)) (stepIndex : Nat) (action : String)
    (step : Json) : Except String StepDelta :=
  let okEvent : Json := Json.obj
    [("step", Json.int ((stepIndex : Int))), ("action", Json.str action),
     ("status", Json.str "ok")]
  if action = "noop" then
    Except.ok ⟨pvars, [], okEvent⟩
  else if action = "select" then
    match step.getPy "selected_ids" with
    | Json.arr ids => do
      let init : List String := match (Json.obj pvars).get "selected_ids" with
        | some (Json.arr xs) => xs.filterMap (fun x => match x with
            | Json.str s => some s
            | _ => none)
        | _ => []
      let merged ← ids.foldlM (fun (acc : List String) item =>
        match item with
        | Json.str s =>
          if s.isEmpty then Except.error "select requires non-empty string ids"
          else Except.ok (if acc.contains s then acc else acc ++ [s])
        | _ => Except.error "select requires non-empty string ids") init
      let vars1 := objSetFields pvars "selected_ids" (Json.arr (merged.map Json.str))
      let store := step.getPy "store"
      let vars2 := if store.pyTruthy then
          objSetFields vars1 store.pyStr (Json.arr (merged.map Json.str))
        else vars1
      Except.ok ⟨vars2, [], okEvent⟩
    | _ => Except.error "select requires selected_ids list"
  else if action = "glimpse" then do
    let aid := step.getPy "artifact_id"
    if aid.pyFalsy then Except.error "glimpse requires artifact_id" else do
    let candidate : Option Candidate := match aid with
      | Json.str s => candidates.find? (fun c => c.artifact_id = s)
      | _ => none
    let (text0, recordMeta) ← (match env.repo with
      | some r => do
        let t ← r.get_artifact_text aid
        let m ← r.get_artifact_metadata aid
        pure (t, if m.pyFalsy then none else some m)
      | none => pure (none, none) :
        Except String (Option String × Option Json))
    let text1 := match text0 with
      | some t => some t
      | none => pick_candidate_text candidate
    match text1 with
    | none => Except.error ("glimpse text not found for artifact_id=" ++ aid.pyStr)
    | some text =>
      if text.isEmpty then
        Except.error ("glimpse text not found for artifact_id=" ++ aid.pyStr)
      else do
      let mode0 := pyLower ((step.getPyD "mode" (Json.str "head")).pyStr)
      let (mode, excerpt, meta) :=
        if mode0 = "range" then
          let r := extract_range text (safe_int (step.getPy "start") 0)
            (safe_int (step.getPy "end") 0)
          (mode0, r.1, r.2)
        else if mode0 = "grep" then
          let r := extract_grep text ((step.getPyD "pattern" (Json.str "")).pyStr)
            (safe_int (step.getPy "window") 120)
            (safe_int (step.getPy "max_hits") env.limits.max_grep_hits)
          (mode0, r.1, r.2)
        else
          let n0 := safe_int (step.getPy "n") 0
          let n := if n0 = 0 then safe_int (step.getPy "head_chars") env.limits.max_glimpse_chars
            else n0
          let r := extract_head text (min n env.limits.max_glimpse_chars)
          ("head", r.1, r.2)
      if excerpt.isEmpty then Except.error "glimpse extracted empty text" else do
      let gmeta0 : Json := Json.obj
        [("step", Json.int ((stepIndex : Int))),
         ("source", Json.str "pipeline_executor"),
         ("artifact_id", aid)]
      let gmeta1 := match candidate with
        | none => gmeta0
        | some c =>
          let withRank := match candidates.findIdx? (fun x => x = c) with
            | some i => gmeta0.objSet "rank" (Json.int (((i + 1 : Int))))
            | none => gmeta0
          withRank.objSet "score" (Json.num c.base_score)
      let gmeta2 := match recordMeta with
        | some m =>
          let ch := m.getPy "content_hash"
          if ch.pyTruthy then gmeta1.objSet "content_hash" ch else gmeta1
        | none => gmeta1
      let span := (meta.getPy "spans").pyOr
        (Json.obj [("start", meta.getPy "start"), ("end", meta.getPy "end")])
      let glimpse : Json := Json.obj
        [("artifact_id", aid), ("mode", Json.str mode), ("text", Json.str excerpt),
         ("span", span), ("hash", Json.str (env.sha256Hex excerpt)),
         ("glimpse_meta", gmeta2)]
      let store := step.getPy "store"
      let vars2 := if store.pyTruthy then
          objSetFields pvars store.pyStr (Json.str excerpt)
        else pvars
      Except.ok ⟨vars2, [glimpse], okEvent⟩
  else if action = "repl" then
    match env.replEnv with
    | none => Except.error "repl_env_unavailable"
    | some run => do
      let code := ((step.getPy "code").pyOr (Json.str "")).pyStr
      let timeoutV := (step.getPy "timeout_s").pyOr (Json.num 1)
      match pyToFloat timeoutV with
      | none => Except.error "ValueError: could not convert to float"
      | some timeout => do
        let result ← run code timeout pvars
        let payload : Json := Json.obj
          [("stdout", result.stdout), ("stderr", result.stderr),
           ("exception", result.exception), ("duration_ms", result.duration_ms)]
        let vars1 := match result.vars with
          | Json.obj fields => varsUpdate pvars fields
          | _ => pvars
        let store := step.getPy "store"
        let vars2 := if store.pyTruthy then
            objSetFields vars1 store.pyStr
              (match result.vars with | Json.null => Json.obj [] | v => v)
          else vars1
        Except.ok ⟨vars2, [], Json.obj
          [("step", Json.int ((stepIndex : Int))), ("action", Json.str action),
           ("status", Json.str "ok"), ("payload", payload)]⟩
  else
    Except.error ("unsupported action: " ++ action)

/-- Mutable state of the `for step_index, step in enumerate(steps, 1)` loop. -/
structure ExecState where
  events : List Json := []
  glimpses : List Json := []
  pvars : List (String × Json) := []
  status : String := "ok"
  errorCount : Nat := 0
  stopped : Bool := false

/-- The step loop of `PipelineExecutor.execute`. -/
def execLoop (env : PipeEnv) (candidates : List Candidate) :
    List Json → Nat → ExecState → ExecState
  | [], _, st => st
  | step :: rest, stepIndex, st =>
    if stepIndex > env.limits.max_steps then
      { st with
        events := st.events ++ [Json.obj
          [("step", Json.int ((stepIndex : Int))), ("action", Json.str "limit"),
           ("status", Json.str "error"),
           ("error", Json.str ("max_steps exceeded: " ++ toString env.limits.max_steps))]],
        status := "error", stopped := true }
    else
      let action := pyLower (pyStrip ((step.getPyD "action" (Json.str "noop")).pyStr))
      match execStep env candidates st.pvars stepIndex action step with
      | Except.ok delta =>
        execLoop env candidates rest (stepIndex + 1)
          { st with events := st.events ++ [delta.event],
                    glimpses := st.glimpses ++ delta.newGlimpses,
                    pvars := delta.pvars }
      | Except.error msg =>
        let st2 := { st with
          errorCount := st.errorCount + 1,
          status := "error",
          events := st.events ++ [Json.obj
            [("step", Json.int ((stepIndex : Int))), ("action", Json.str action),
             ("status", Json.str "error"), ("error", Json.str msg)]] }
        if st2.errorCount > env.limits.max_event_errors then
          { st2 with stopped := true }
        else
          execLoop env candidates rest (stepIndex + 1) st2

/-- `PipelineExecutor.execute(program, index, options)`.  Only the
initial `dict(options.get("vars") or {})` can raise; every per-step
exception is converted to an `error` event by `execLoop`. -/
def pipeline_execute (env : PipeEnv) (program : Json) (index : CandidateIndex)
    (options : Json) : Except String Json := do
  let steps := extract_steps program
  let vars0 ← pyDictOf ((options.getPy "vars").pyOr (Json.obj []))
  let st := execLoop env index.candidates steps 1 { pvars := vars0 }
  let meta : Json := Json.obj
    [("mode", Json.str "pipeline_executor"),
     ("step_count", Json.int ((st.events.length : Int))),
     ("error_count", Json.int ((st.errorCount : Int))),
     ("stopped", Json.bool st.stopped)]
  Except.ok (Json.obj
    [("events", Json.arr st.events), ("glimpses", Json.arr st.glimpses),
     ("subcalls", Json.arr []), ("variables", Json.obj st.pvars),
     ("status", Json.str st.status), ("meta", meta)])

/-! ## Three-round orchestrator (`services/run_pipeline.py`) -/

/-- `app.config.Settings` fields the pipeline reads. -/
structure AppSettings where
  rlm_rootlm_backend : String := "mock"
  vllm_base_url : Option String := none
  vllm_api_key : Option String := none
  vllm_model : Option String := none
  vllm_max_tokens : Option Int := none
  vllm_temperature : Option Rat := none

/-- Optional settings string as a Python value. -/
def jsonOfOptStr : Option String → Json
  | none => Json.null
  | some s => Json.str s

/-- Optional settings int as a Python value. -/
def jsonOfOptInt : Option Int → Json
  | none => Json.null
  | some n => Json.int n

/-- Optional settings float as a Python value. -/
def jsonOfOptRat : Option Rat → Json
  | none => Json.null
  | some q => Json.num q

/-- `list(value)`: lists copy, strings yield their characters, dicts their
keys; non-iterables raise. -/
def pyListOf : Json → Except String (List Json)
  | Json.arr items => Except.ok items
  | Json.str s => Except.ok (s.data.map (fun c => Json.str (String.singleton c)))
  | Json.obj fields => Except.ok (fields.map (fun p => Json.str p.1))
  | _ => Except.error "TypeError: object is not iterable"

/-- `value.get(key)` as an attribute access: raises on non-dicts. -/
def jsonGetAttr (j : Json) (k : String) : Except String Json :=
  match j with
  | Json.obj _ => Except.ok (j.getPy k)
  | _ => Except.error "AttributeError: no attribute get"

/-- Dict-literal merge `{**base, k₁: v₁, …}` (later keys overwrite). -/
def mergeObjInto (base : Json) (adds : List (String × Json)) : Json :=
  adds.foldl (fun acc p => acc.objSet p.1 p.2)
    (match base with | Json.obj fs => Json.obj fs | _ => Json.obj [])

/-- `RootLMProgramResult`. -/
structure RootLMProgramResult where
  program : Json
  meta : Json := Json.obj []
  raw : Json := Json.null
  deriving Repr, DecidableEq

/-- `RootLMFinalResult`. -/
structure RootLMFinalResult where
  final : Json
  meta : Json := Json.obj []
  raw : Json := Json.null
  deriving Repr, DecidableEq

/-- The `RootLMClient` protocol; either operation may raise. -/
structure RootLMClient where
  generate_program : CandidateIndex → Json → Json → Json → Except String RootLMProgramResult
  generate_final : CandidateIndex → List Json → List Json → Json → Except String RootLMFinalResult

/-- `MockRootLM.generate_program`. -/
def mock_generate_program (index : CandidateIndex) (policy limits options : Json) :
    RootLMProgramResult :=
  let candidate_ids := index.candidates.map (fun c => Json.str c.artifact_id)
  let program :=
    if options.getPy "program" = Json.null then
      let steps : List Json := match candidate_ids with
        | [] => []
        | firstId :: _ =>
          [Json.obj [("action", Json.str "select"), ("selected_ids", Json.arr [firstId])],
           Json.obj [("action", Json.str "glimpse"), ("artifact_id", firstId),
                     ("mode", Json.str "head"), ("n", Json.int 800)]]
      Json.obj [("policy", policy), ("limits", limits),
                ("candidate_ids", Json.arr candidate_ids), ("steps", Json.arr steps)]
    else options.getPy "program"
  { program := program,
    meta := Json.obj [("mode", Json.str "mock"), ("policy", policy), ("limits", limits)],
    raw := Json.obj [("mock", Json.bool true)] }

/-- `MockRootLM.generate_final`. -/
def mock_generate_final (index : CandidateIndex) (evidence subcalls : List Json)
    (options : Json) : Except String RootLMFinalResult := do
  let answer :=
    if options.getPy "final_answer" = Json.null then
      Json.str ("Mock answer for: " ++ index.query)
    else options.getPy "final_answer"
  let citations ← pyListOf ((options.getPy "citations").pyOr (Json.arr []))
  Except.ok
    { final := Json.obj
        [("answer", answer), ("citations", Json.arr citations),
         ("evidence_count", Json.int ((evidence.length : Int))),
         ("subcall_count", Json.int ((subcalls.length : Int)))],
      meta := Json.obj [("mode", Json.str "mock")],
      raw := Json.obj [("mock", Json.bool true)] }

/-- `MockRootLM` as a client. -/
def mockRootLM : RootLMClient :=
  { generate_program := fun index policy limits options =>
      Except.ok (mock_generate_program index policy limits options),
    generate_final := mock_generate_final }

/-- The empty-steps program shell of `VllmRootLM.generate_program`'s
`parsed is None` branch. -/
def programShell (index : CandidateIndex) (policy limits : Json) : Json :=
  Json.obj [("policy", policy), ("limits", limits),
            ("candidate_ids", Json.arr (index.candidates.map (fun c => Json.str c.artifact_id))),
            ("steps", Json.arr [])]

/-- `VllmRootLM.generate_program`; `gen` is the underlying
`InferenceVllmAdapter.generate` call (HTTP, may raise). -/
def vllm_generate_program (gen : String → Except String String) (index : CandidateIndex)
    (policy limits options : Json) : Except String RootLMProgramResult := do
  let payload := Json.obj
    [("query", Json.str index.query), ("policy", policy), ("limits", limits),
     ("candidate_ids", Json.arr (index.candidates.map (fun c => Json.str c.artifact_id)))]
  let prompt := "You are RootLM. Return JSON only.\n"
    ++ "Schema: \x7b\"program\": \x7b\"steps\": [], \"candidate_ids\": [], \"policy\": \x7b\x7d, \"limits\": \x7b\x7d\x7d\x7d\n"
    ++ "Input: " ++ jsonDumps false false false payload
  let raw_text ← gen prompt
  match extract_json_payload raw_text with
  | Except.error e => Except.error e
  | Except.ok none =>
    Except.ok { program := programShell index policy limits,
                meta := Json.obj [("mode", Json.str "vllm"), ("parsed", Json.bool false)],
                raw := Json.obj [("text", Json.str raw_text)] }
  | Except.ok (some parsed) =>
    Except.ok { program := (parsed.getPy "program").pyOr parsed,
                meta := Json.obj [("mode", Json.str "vllm"), ("parsed", Json.bool true)],
                raw := parsed }

/-- `VllmRootLM.generate_final`. -/
def vllm_generate_final (gen : String → Except String String) (index : CandidateIndex)
    (evidence subcalls : List Json) (options : Json) : Except String RootLMFinalResult := do
  let payload := Json.obj
    [("query", Json.str index.query), ("evidence", Json.arr evidence),
     ("subcalls", Json.arr subcalls)]
  let prompt := "You are RootLM. Return JSON only.\n"
    ++ "Schema: \x7b\"final\": \x7b\"answer\": \"\", \"citations\": []\x7d\x7d\n"
    ++ "Input: " ++ jsonDumps false false false payload
  let raw_text ← gen prompt
  match extract_json_payload raw_text with
  | Except.error e => Except.error e
  | Except.ok none =>
    Except.ok { final := Json.obj [("answer", Json.str (pyStrip raw_text)),
                                   ("citations", Json.arr [])],
                meta := Json.obj [("mode", Json.str "vllm"), ("parsed", Json.bool false)],
                raw := Json.obj [("text", Json.str raw_text)] }
  | Except.ok (some parsed) =>
    Except.ok { final := (parsed.getPy "final").pyOr parsed,
                meta := Json.obj [("mode", Json.str "vllm"), ("parsed", Json.bool true)],
                raw := parsed }

/-- `VllmRootLM` as a client. -/
def vllmRootLM (gen : String → Except String String) : RootLMClient :=
  { generate_program := vllm_generate_program gen,
    generate_final := vllm_generate_final gen }

/-- A `ProgramExecutor`: `execute(program, index, options)`. -/
def ExecutorFn : Type :=
  Json → CandidateIndex → Json → Except String Json

/-- `MockExecutor.execute`. -/
def mock_executor_execute : ExecutorFn := fun program _index options => do
  let events ← pyListOf ((options.getPy "events").pyOr (Json.arr []))
  let glimpses ← pyListOf ((options.getPy "glimpses").pyOr (Json.arr []))
  let subcalls ← pyListOf ((options.getPy "subcalls").pyOr (Json.arr []))
  let vars ← pyDictOf ((options.getPy "vars").pyOr (Json.obj []))
  let programSummary ← jsonGetAttr program "steps"
  Except.ok (Json.obj
    [("events", Json.arr events), ("glimpses", Json.arr glimpses),
     ("subcalls", Json.arr subcalls), ("variables", Json.obj vars),
     ("status", Json.str ((options.getPy "executor_status").pyOr (Json.str "ok")).pyStr),
     ("meta", Json.obj [("mode", Json.str "mock"), ("program_summary", programSummary)])])

/-- `_normalize_execution(execution)`: returns
`(events, glimpses, subcalls, variables, status, meta)` with the
`normalized` marker applied to `meta`. -/
def normalize_execution (execution : Json) :
    List Json × List Json × List Json × List (String × Json) × String × Json :=
  let pick : String → Option Json := fun k =>
    match execution with
    | Json.obj _ => execution.get k
    | _ => none
  let asList : Option Json → List Json × Bool := fun v =>
    match v with
    | some (Json.arr xs) => (xs, false)
    | _ => ([], true)
  let asDict : Option Json → List (String × Json) × Bool := fun v =>
    match v with
    | some (Json.obj fs) => (fs, false)
    | _ => ([], true)
  let (events, f1) := asList (pick "events")
  let (glimpses, f2) := asList (pick "glimpses")
  let (subcalls, f3) := asList (pick "subcalls")
  let (vars, f4) := asDict (pick "variables")
  let (status, f5) : String × Bool :=
    match pick "status" with
    | some (Json.str s) => if s.isEmpty then ("ok", true) else (s, false)
    | _ => ("ok", true)
  let (metaFs, f6) := asDict (pick "meta")
  let normalized := f1 || f2 || f3 || f4 || f5 || f6
  let meta := if normalized then
      (Json.obj metaFs).objSet "normalized" (Json.bool true)
    else Json.obj metaFs
  (events, glimpses, subcalls, vars, status, meta)

/-- `_build_evidence(events, glimpses, subcalls)`. -/
def build_evidence (events glimpses subcalls : List Json) : List Json :=
  [Json.obj [("events", Json.arr events)],
   Json.obj [("glimpses", Json.arr glimpses)],
   Json.obj [("subcalls", Json.arr subcalls)]]

/-- `_resolve_vllm_config(options)`. -/
def resolve_vllm_config (st : AppSettings) (options : Json) : Json :=
  Json.obj
    [("base_url", (options.getPy "vllm_base_url").pyOr (jsonOfOptStr st.vllm_base_url)),
     ("api_key", (options.getPy "vllm_api_key").pyOr (jsonOfOptStr st.vllm_api_key)),
     ("model", (options.getPy "vllm_model").pyOr (jsonOfOptStr st.vllm_model)),
     ("max_tokens", (options.getPy "vllm_max_tokens").pyOr (jsonOfOptInt st.vllm_max_tokens)),
     ("temperature", (options.getPy "vllm_temperature").pyOr (jsonOfOptRat st.vllm_temperature))]

/-- `str.endswith(suffix)` as character-list suffix equality. -/
def strEndsWith (s suffix : String) : Bool :=
  suffix.data.isSuffixOf s.data

/-- `_normalize_vllm_base_url(value)`. -/
def normalize_vllm_base_url (v : String) : String :=
  let t := String.mk ((v.data.reverse.dropWhile (fun c => c = '/')).reverse)
  if strEndsWith t "/v1" then pySlice t 0 ((t.length : Int) - 3) else t

/-- `_resolve_decision_vllm_config(options)`. -/
def resolve_decision_vllm_config (st : AppSettings) (options : Json) :
    Option Json × Option String :=
  let config := resolve_vllm_config st options
  let baseUrl := config.getPy "base_url"
  let config := if baseUrl.pyTruthy then
      config.objSet "base_url" (Json.str (normalize_vllm_base_url baseUrl.pyStr))
    else config
  let missing : List String :=
    (if (config.getPy "base_url").pyTruthy then [] else ["VLLM_BASE_URL"])
      ++ (if (config.getPy "model").pyTruthy then [] else ["VLLM_MODEL"])
  if missing.isEmpty then (some config, none)
  else (none, some ("vllm_missing_config: " ++ String.intercalate ", " missing))

/-- Environment of one `run_rlm` invocation: settings, whether the
`PipelineExecutor` import at module load succeeded, the repository surface,
the id `insert_run` returns, the SHA-256 primitive and the HTTP LLM call.
Retrieval is SQL-backed, so the built `CandidateIndex` is an input of the
model; the trace logger only appends to a file and has no modelled
observable state. -/
structure RunEnv where
  settings : AppSettings := {}
  pipelineAvailable : Bool := true
  pipelineImportError : String := ""
  repo : ExecRepo
  run_id : String := "run-1"
  sha256Hex : String → String
  vllmGenerate : String → Except String String

/-- `_select_executor`: the chosen executor, plus the `errors` and `meta`
it may have extended. -/
def select_executor (injected : Option ExecutorFn) (env : RunEnv) (options : Json)
    (errors : List Json) (meta : List (String × Json)) :
    ExecutorFn × List Json × List (String × Json) :=
  match injected with
  | some e => (e, errors, meta)
  | none =>
    let backend := normName ((options.getPy "executor_backend").pyOr (Json.str "real")).pyStr
    if backend = "mock" then
      (mock_executor_execute, errors, objSetFields meta "executor_backend" (Json.str "mock"))
    else if ¬ env.pipelineAvailable then
      (mock_executor_execute,
       errors ++ [Json.obj
         [("stage", Json.str "executor_init"),
          ("error", Json.str ("pipeline_executor_import_failed: " ++ env.pipelineImportError))]],
       objSetFields meta "executor_backend" (Json.str "mock_fallback"))
    else
      (fun program index opts =>
         pipeline_execute { repo := some env.repo, sha256Hex := env.sha256Hex } program index opts,
       errors, objSetFields meta "executor_backend" (Json.str "real"))

/-- `RunResult`. -/
structure RunResult where
  run_id : String
  status : String
  final : Json
  program : Json := Json.obj []
  glimpses : List Json := []
  subcalls : List Json := []
  final_answer : Option String := none
  citations : List Json := []
  deriving Repr, DecidableEq

/-- One `update_run_payload` call's arguments (the persisted snapshot). -/
structure RunPayload where
  program : Json
  meta : Json
  events : List Json
  glimpses : List Json
  glimpses_meta : List Json
  subcalls : List Json
  evidence : List Json
  final : Json
  final_answer : Option String
  citations : List Json
  status : String
  errors : List Json
  deriving Repr, DecidableEq

/-- The orchestrator's mutable locals between rounds. -/
structure RunState where
  status : String := "ok"
  errors : List Json := []
  meta : List (String × Json) := []
  program : Json := Json.obj []
  events : List Json := []
  glimpses : List Json := []
  glimpses_meta : List Json := []
  subcalls : List Json := []
  evidence : List Json := build_evidence [] [] []
  final : Json := Json.obj []
  final_answer : Option String := none
  citations : List Json := []

/-- The `update_run_payload` snapshot of the current state. -/
def RunState.payload (st : RunState) : RunPayload :=
  { program := st.program, meta := Json.obj st.meta, events := st.events,
    glimpses := st.glimpses, glimpses_meta := st.glimpses_meta,
    subcalls := st.subcalls, evidence := st.evidence, final := st.final,
    final_answer := st.final_answer, citations := st.citations,
    status := st.status, errors := st.errors }

/-- The `RunResult` built from the current state. -/
def RunState.result (env : RunEnv) (st : RunState) : RunResult :=
  { run_id := env.run_id, status := st.status, final := st.final,
    program := st.program, glimpses := st.glimpses, subcalls := st.subcalls,
    final_answer := st.final_answer, citations := st.citations }

/-- Round 1 (Plan): call `generate_program`, record program and
`meta.round1`, or turn the exception into a `round1` error. -/
def round1Step (plan : RootLMClient) (index : CandidateIndex) (options : Json)
    (st : RunState) : RunState :=
  let attempt : Except String (RootLMProgramResult × List (String × Json) × List (String × Json)) := do
    let policy ← pyDictOf ((options.getPy "policy").pyOr (Json.obj []))
    let limits ← pyDictOf ((options.getPy "limits").pyOr (Json.obj []))
    let pr ← plan.generate_program index (Json.obj policy) (Json.obj limits) options
    pure (pr, policy, limits)
  match attempt with
  | Except.ok (pr, policy, limits) =>
    { st with program := pr.program,
              meta := objSetFields st.meta "round1" (mergeObjInto pr.meta
                [("policy", Json.obj policy), ("limits", Json.obj limits),
                 ("stage", Json.str "plan")]) }
  | Except.error e =>
    { st with status := "error",
              errors := st.errors ++ [Json.obj
                [("stage", Json.str "round1"), ("error", Json.str e)]] }

/-- Round 2 (Examine): run the executor, normalize its result, derive
`glimpses_meta` and the evidence snapshot; partial assignments before a
caught exception persist exactly as in Python. -/
def round2Step (executorFn : ExecutorFn) (index : CandidateIndex) (options : Json)
    (st : RunState) : RunState :=
  match executorFn st.program index options with
  | Except.error e =>
    { st with status := "error",
              errors := st.errors ++ [Json.obj
                [("stage", Json.str "round2"), ("error", Json.str e)]] }
  | Except.ok execution =>
    let (events, glimpses, subcalls, vars, execStatus, execMeta) :=
      normalize_execution execution
    match pyListOf ((options.getPy "glimpses_meta").pyOr (Json.arr [])) with
    | Except.error e =>
      { st with status := "error",
                errors := st.errors ++ [Json.obj
                  [("stage", Json.str "round2"), ("error", Json.str e)]],
                events := events, glimpses := glimpses, subcalls := subcalls }
    | Except.ok gm0 =>
      let glimpses_meta :=
        if gm0.isEmpty then
          (glimpses.filterMap (fun item =>
            match item with
            | Json.obj _ =>
              if (item.getPy "glimpse_meta").pyTruthy then some (item.getPy "glimpse_meta")
              else none
            | _ => none))
        else gm0
      { st with
        events := events, glimpses := glimpses, subcalls := subcalls,
        glimpses_meta := glimpses_meta,
        evidence := build_evidence events glimpses subcalls,
        meta := objSetFields st.meta "round2" (mergeObjInto execMeta
          [("vars", Json.obj vars), ("status", Json.str execStatus),
           ("stage", Json.str "examine")]),
        status := if execStatus.isEmpty then st.status else execStatus }

/-- Round 3 (Decision): one vLLM attempt with mock fallback on exception,
then answer/citations extraction and `meta.round3`; partial assignments
before a caught exception persist exactly as in Python. -/
def round3Step (decisionMode : String) (decisionClient : RootLMClient)
    (fallbackReason0 : Option String) (index : CandidateIndex) (options : Json)
    (st : RunState) : RunState :=
  let evidence := build_evidence st.events st.glimpses st.subcalls
  let st := { st with evidence := evidence }
  let (firstResult, fallbackReason, client) :
      Option RootLMFinalResult × Option String × RootLMClient :=
    if decisionMode = "vllm" then
      match decisionClient.generate_final index evidence st.subcalls options with
      | Except.ok fr => (some fr, fallbackReason0, decisionClient)
      | Except.error e => (none, some ("vllm_request_failed: " ++ e), mockRootLM)
    else (none, fallbackReason0, decisionClient)
  let finalResult : Except String RootLMFinalResult :=
    match firstResult with
    | some fr => Except.ok fr
    | none => client.generate_final index evidence st.subcalls options
  match finalResult with
  | Except.error e =>
    { st with status := "error",
              errors := st.errors ++ [Json.obj
                [("stage", Json.str "round3"), ("error", Json.str e)]] }
  | Except.ok fr =>
    match fr.final with
    | Json.obj _ =>
      let answerV := fr.final.getPy "answer"
      let final_answer := if answerV = Json.null then none else some answerV.pyStr
      match pyListOf ((fr.final.getPy "citations").pyOr (Json.arr [])) with
      | Except.error e =>
        { st with status := "error",
                  errors := st.errors ++ [Json.obj
                    [("stage", Json.str "round3"), ("error", Json.str e)]],
                  final := fr.final, final_answer := final_answer }
      | Except.ok citations =>
        let round3Meta := mergeObjInto fr.meta
          [("evidence_items", Json.int ((evidence.length : Int))),
           ("stage", Json.str "decision")]
        let round3Meta := match fallbackReason with
          | some r => (round3Meta.objSet "fallback_reason" (Json.str r)).objSet
              "fallback_from" (Json.str "vllm")
          | none => round3Meta
        { st with final := fr.final, final_answer := final_answer,
                  citations := citations,
                  meta := objSetFields st.meta "round3" round3Meta }
    | _ =>
      { st with status := "error",
                errors := st.errors ++ [Json.obj
                  [("stage", Json.str "round3"),
                   ("error", Json.str "AttributeError: no attribute get")]],
                final := fr.final }

/-- Decision backend selection in `run_rlm`'s prologue: the backend name,
client and `fallback_reason` before round 3.  The `VllmRootLM` constructor
performs no I/O and its only failure (empty base URL) is excluded by
`_resolve_decision_vllm_config`, so the `vllm_init_failed` branch of the
source is unreachable. -/
def selectDecisionBackend (env : RunEnv) (options : Json) :
    String × RootLMClient × Option String :=
  let backend := normName
    (((options.getPy "rootlm_backend").pyOr
        ((Json.str env.settings.rlm_rootlm_backend).pyOr (Json.str "mock")))).pyStr
  if backend = "vllm" then
    match resolve_decision_vllm_config env.settings options with
    | (some _, _) => ("vllm", vllmRootLM env.vllmGenerate, none)
    | (none, reason) => ("mock", mockRootLM, reason)
  else ("mock", mockRootLM, none)

/-- `run_rlm(repo, session_id, query, options, rootlm=…, executor=…)`:
returns the `RunResult` and the ordered `update_run_payload` snapshots. -/
def run_rlm (env : RunEnv) (index : CandidateIndex) (options : Json)
    (rootlm : Option RootLMClient := none)
    (injectedExecutor : Option ExecutorFn := none) :
    RunResult × List RunPayload :=
  let plan := rootlm.getD mockRootLM
  let (decisionMode, decisionClient, fallbackReason0) := selectDecisionBackend env options
  let st0 : RunState :=
    { meta := [("round0", Json.obj
        [("candidate_count", Json.int ((index.candidates.length : Int)))])] }
  let (executorFn, errors1, meta1) :=
    select_executor injectedExecutor env options st0.errors st0.meta
  let st0 := { st0 with errors := errors1, meta := meta1 }
  let st1 := round1Step plan index options st0
  if st1.status ≠ "ok" then
    (st1.result env, [st1.payload])
  else
    let st2 := round2Step executorFn index options st1
    if st2.status ≠ "ok" then
      (st2.result env, [st1.payload, st2.payload])
    else
      let st3 := round3Step decisionMode decisionClient fallbackReason0 index options st2
      (st3.result env, [st1.payload, st2.payload, st3.payload])

/-! ## Assembly-mode runner (`services/program_runner.py`) -/

/-- The `_DEFAULT_LIMITS` snapshot after `build_limits_snapshot`. -/
structure RunnerLimits where
  max_steps : Int := 16
  max_subcalls : Int := 24
  max_depth : Int := 4
  max_program_chars : Int := 20000
  max_event_errors : Int := 2
  deriving Repr, DecidableEq

/-- One limit entry of `build_limits_snapshot`. -/
def snapshotLimit (options : Json) (key : String) (default : Int) : Int :=
  let raw := options.getPyD key (Json.int default)
  let value := (raw.pyToInt).getD default
  if value ≤ 0 then default else value

/-- `build_limits_snapshot(options)`. -/
def build_limits_snapshot (options : Json) : RunnerLimits :=
  { max_steps := snapshotLimit options "max_steps" 16,
    max_subcalls := snapshotLimit options "max_subcalls" 24,
    max_depth := snapshotLimit options "max_depth" 4,
    max_program_chars := snapshotLimit options "max_program_chars" 20000,
    max_event_errors := snapshotLimit options "max_event_errors" 2 }

/-- `program_runner._clamp_int(value, default=…, lo=…, hi=…)`. -/
def runner_clamp_int (value : Json) (default lo hi : Int) : Int :=
  match value.pyToInt with
  | none => default
  | some n => if n < lo then lo else if n > hi then hi else n

/-- Outcomes of the guarded pre-checks: `ProgramLimitError`,
`ProgramParseError`/`JSONDecodeError`/`TypeError`/`ValueError` (all caught
by `run_program`), or an exception that escapes it (`AttributeError` from
`step.get` on a non-dict step). -/
inductive RunnerErr where
  | limitErr (limit : String) (value maxValue : Int)
  | parseErr (msg : String)
  | uncaught (msg : String)
  deriving Repr, DecidableEq

/-- `_estimate_program_chars(raw_program)`; the `TypeError` fallback is
unreachable for embedded values (every `Json` serializes). -/
def estimate_program_chars : Json → Nat
  | Json.null => 0
  | Json.str s => s.length
  | other => (jsonDumpsDefault other).length

/-- `_extract_program(raw_program)`: the steps value (any shape), with
string programs decoded recursively.  Each string round-trip strictly
shrinks the text, so fuel `|s| + 1` dominates the recursion. -/
def extract_program (fuel : Nat) : Json → Except RunnerErr Json
  | Json.null => Except.ok (Json.arr [])
  | Json.arr items => Except.ok (Json.arr items)
  | Json.obj fields =>
    if fields.any (fun p => p.1 = "steps") then
      Except.ok ((Json.obj fields).getPy "steps")
    else if fields.any (fun p => p.1 = "program") then
      Except.ok ((Json.obj fields).getPy "program")
    else Except.ok (Json.arr [Json.obj fields])
  | Json.str s =>
    let text := pyStrip s
    if text.isEmpty then Except.ok (Json.arr [])
    else
      match jsonLoads text with
      | none => Except.error (RunnerErr.parseErr "json.decoder.JSONDecodeError")
      | some data =>
        match fuel with
        | 0 => Except.error (RunnerErr.uncaught "RecursionError")
        | fuel + 1 => extract_program fuel data
  | other => Except.error (RunnerErr.parseErr "program must be list, dict, or json string")

mutual

/-- `_check_limits._walk(steps, depth)` entry: the depth guard. -/
def walkEntry (maxSteps maxSubcalls maxDepth : Int) (fuel : Nat) (steps : List Json)
    (depth : Int) (stepCount subcallCount : Nat) : Except RunnerErr (Nat × Nat) :=
  if depth > maxDepth then
    Except.error (RunnerErr.limitErr "max_depth" depth maxDepth)
  else walkList maxSteps maxSubcalls maxDepth fuel steps depth stepCount subcallCount

/-- The `for step in steps` body of `_walk`. -/
def walkList (maxSteps maxSubcalls maxDepth : Int) (fuel : Nat) (steps : List Json)
    (depth : Int) (stepCount subcallCount : Nat) : Except RunnerErr (Nat × Nat) :=
  match steps with
  | [] => Except.ok (stepCount, subcallCount)
  | step :: rest =>
    let stepCount := stepCount + 1
    if (stepCount : Int) > maxSteps then
      Except.error (RunnerErr.limitErr "max_steps" ((stepCount : Int)) maxSteps)
    else
      match step with
      | Json.obj _ =>
        let subcalls := (step.getPy "subcalls").pyOr (Json.arr [])
        if subcalls.pyTruthy then
          match subcalls with
          | Json.arr subs =>
            let subcallCount := subcallCount + subs.length
            if (subcallCount : Int) > maxSubcalls then
              Except.error (RunnerErr.limitErr "max_subcalls" ((subcallCount : Int)) maxSubcalls)
            else
              match fuel with
              | 0 => Except.error (RunnerErr.uncaught "RecursionError")
              | fuel + 1 =>
                match walkEntry maxSteps maxSubcalls maxDepth fuel subs (depth + 1)
                    stepCount subcallCount with
                | Except.error e => Except.error e
                | Except.ok (sc, subc) =>
                  walkList maxSteps maxSubcalls maxDepth fuel rest depth sc subc
          | _ => Except.error (RunnerErr.parseErr "subcalls must be a list")
        else walkList maxSteps maxSubcalls maxDepth fuel rest depth stepCount subcallCount
      | _ => Except.error (RunnerErr.uncaught "AttributeError: no attribute get")

end

/-- `_check_limits(program, limits)`: `list(program)` then the recursive
walk from depth 1.  Fuel `max_depth + 2` dominates the depth recursion,
which the entry guard bounds. -/
def check_limits (program : Json) (limits : RunnerLimits) : Except RunnerErr Unit :=
  match pyListOf program with
  | Except.error e => Except.error (RunnerErr.parseErr e)
  | Except.ok steps =>
    match walkEntry limits.max_steps limits.max_subcalls limits.max_depth
        (limits.max_depth.toNat + 2) steps 1 0 0 with
    | Except.error e => Except.error e
    | Except.ok _ => Except.ok ()

/-- Sort key of `_fallback_candidates`: `(pinned, weight, hit_count,
base_score)`.  The `float(...)` of a truthy non-numeric `hit_count` would
raise `ValueError` in Python; the model falls back to 0 there (no claim
reaches it). -/
def fallbackKey (c : Candidate) : Bool × Rat × Rat × Rat :=
  let hit := match pyToFloat ((c.score_breakdown.getPy "hit_count").pyOr (Json.num 0)) with
    | some q => q
    | none => 0
  (c.pinned, c.weight, hit, c.base_score)

/-- Strict lexicographic `<` on the sort key (`False < True` on bools). -/
def keyLt (a b : Bool × Rat × Rat × Rat) : Bool :=
  (¬ a.1 ∧ b.1) ∨ (a.1 = b.1 ∧ (a.2.1 < b.2.1 ∨ (a.2.1 = b.2.1 ∧
    (a.2.2.1 < b.2.2.1 ∨ (a.2.2.1 = b.2.2.1 ∧ a.2.2.2 < b.2.2.2)))))

/-- `_fallback_candidates(index, top_k=…)`: stable descending sort then
truncation. -/
def fallback_candidates (index : CandidateIndex) (topK : Int) : List Candidate :=
  (sortStable (fun a b => ¬ keyLt (fallbackKey a) (fallbackKey b)) index.candidates).take
    topK.toNat

/-- `deterministic_fallback(index, top_k=…)`. -/
def deterministic_fallback (index : CandidateIndex) (topK : Int) : Json :=
  let selected := fallback_candidates index topK
  Json.obj
    [("mode", Json.str "deterministic_fallback"),
     ("selected_ids", Json.arr (selected.map (fun c => Json.str c.artifact_id))),
     ("selected", Json.arr (selected.map (fun c => Json.obj
       [("artifact_id", Json.str c.artifact_id), ("pinned", Json.bool c.pinned),
        ("weight", Json.num c.weight),
        ("hit_count", c.score_breakdown.getPyD "hit_count" (Json.num 0))])))]

/-- `RunnerOutcome`. -/
structure RunnerOutcome where
  status : String
  assembled_context : Json
  errors : List Json
  events : List Json
  degraded : Bool
  deriving Repr, DecidableEq

/-- Result surface of `executor.py`'s `ProgramExecutor.execute` as
`run_program` consumes it (`events` already `to_dict()`-rendered). -/
structure AssemblyExecution where
  events : List Json
  errors : List Json
  selected_ids : List String
  stopped : Bool

/-- `run_program(index, options, limits=…)`; the assembly-phase
`ProgramExecutor` is the parameter `execFn` (its construction and stepping
live in `executor.py`), applied to the extracted program.  The outer
`Except` carries only exceptions `run_program` itself does not catch. -/
def run_program (execFn : Json → AssemblyExecution) (index : CandidateIndex)
    (options : Json) (limits : RunnerLimits) : Except String RunnerOutcome :=
  let raw := options.getPy "program"
  let fallbackTopK := runner_clamp_int (options.getPyD "fallback_top_k" (Json.int 5)) 5 1 200
  let checks : Except RunnerErr Json := do
    let chars := estimate_program_chars raw
    if (chars : Int) > limits.max_program_chars then
      Except.error (RunnerErr.limitErr "max_program_chars" ((chars : Int))
        limits.max_program_chars)
    else do
      let program ← extract_program (raw.pyStr.length + 1) raw
      let _ ← check_limits program limits
      pure program
  match checks with
  | Except.error (RunnerErr.limitErr limit value maxValue) =>
    Except.ok
      { status := "stopped", assembled_context := Json.obj [],
        errors := [Json.obj
          [("type", Json.str "limit_exceeded"), ("limit", Json.str limit),
           ("value", Json.int value), ("max", Json.int maxValue)]],
        events := [], degraded := false }
  | Except.error (RunnerErr.parseErr msg) =>
    Except.ok
      { status := "degraded",
        assembled_context := deterministic_fallback index fallbackTopK,
        errors := [Json.obj
          [("type", Json.str "program_parse_failed"), ("message", Json.str msg)]],
        events := [], degraded := true }
  | Except.error (RunnerErr.uncaught msg) => Except.error msg
  | Except.ok program =>
    let execution := execFn program
    let events := execution.events
    let errors := execution.errors
    if execution.stopped ∧ ¬ execution.errors.isEmpty then
      if execution.errors.any (fun e => e.getPy "type" = Json.str "event_error_threshold") then
        Except.ok
          { status := "degraded",
            assembled_context := deterministic_fallback index fallbackTopK,
            errors := errors, events := events, degraded := true }
      else
        Except.ok
          { status := "stopped", assembled_context := Json.obj [],
            errors := errors, events := events, degraded := false }
    else
      let selected := execution.selected_ids.foldl
        (fun acc x => if acc.contains x then acc else acc ++ [x]) []
      Except.ok
        { status := "ok",
          assembled_context := Json.obj
            [("mode", Json.str "program"),
             ("selected_ids", Json.arr (selected.map Json.str))],
          errors := errors, events := events, degraded := false }

/-! ## Shared fixtures for concrete scenarios -/

/-- A repository holding one artifact `a1` (shape of the repository used by
the source's own run tests). -/
def fixtureRepo : ExecRepo :=
  { get_artifact_text := fun aid => match aid with
      | Json.str "a1" => Except.ok (some "Full content for artifact a1.")
      | _ => Except.ok none
    get_artifact_metadata := fun aid => match aid with
      | Json.str "a1" => Except.ok (Json.obj [("content_hash", Json.str "hash-a1")])
      | _ => Except.ok (Json.obj []) }

/-- A closed run environment: default settings, pipeline import succeeded,
an unreachable LLM endpoint, and a trivial hash stand-in (no inspected
value depends on it). -/
def fixtureEnv : RunEnv :=
  { repo := fixtureRepo
    sha256Hex := fun _ => "sha"
    vllmGenerate := fun _ => Except.error "connection refused" }

/-- A one-candidate index for session `s1`. -/
def fixtureIndex : CandidateIndex :=
  { session_id := "s1", project_id := "p1", query := "what is this?",
    candidates := [{ artifact_id := "a1", content_hash := some "hash-a1",
                     content_preview := "preview", base_score := 1 }] }

/-- Options selecting the vLLM decision backend (shape of the source's own
fallback test). -/
def fixtureVllmOptions : Json :=
  Json.obj [("rootlm_backend", Json.str "vllm"),
            ("vllm_base_url", Json.str "http://127.0.0.1:1/v1"),
            ("vllm_model", Json.str "m")]

/-- Options whose `program` override holds one step with an unsupported
action, driving the executor into a per-step failure. -/
def fixtureBadStepOptions : Json :=
  Json.obj [("program", Json.obj [("steps",
    Json.arr [Json.obj [("action", Json.str "frobnicate")]])])]

/-- A `PipelineExecutor` environment over the fixture repository. -/
def fixturePipeEnv : PipeEnv :=
  { repo := some fixtureRepo, sha256Hex := fun _ => "sha" }

/-- A single step with an unsupported action. -/
def fixtureBadStep : Json := Json.obj [("action", Json.str "frobnicate")]

/-- Modelled from the spec: the claimed status/errors consistency of one
persisted payload (`status="error" ⇒ errors ≠ []`,
`status="ok" ⇒ errors = []`). -/
def payloadClaimedConsistent (p : RunPayload) : Prop :=
  (p.status = "error" → p.errors ≠ []) ∧ (p.status = "ok" → p.errors = [])

/-- The consistency the code actually maintains: an `"ok"` payload may
carry errors, but only executor-backend-fallback entries
(`stage="executor_init"`); an `"error"` payload either carries errors or
records the executor's own failing status under `meta.round2.status`. -/
def payloadConsistent (p : RunPayload) : Prop :=
  (p.status = "ok" → ∀ err ∈ p.errors, err.getPy "stage" = Json.str "executor_init") ∧
  (p.status = "error" → p.errors ≠ [] ∨
    (p.meta.getPy "round2").getPy "status" = Json.str "error")

/-! ## Dictionary lemmas -/

theorem lookup_objSetFields_self (fs : List (String × Json)) (k : String) (v : Json) :
    (objSetFields fs k v).lookup k = some v := by
  induction fs with
  | nil => simp [objSetFields, List.lookup]
  | cons p ps ih =>
    by_cases hp : p.1 = k
    · simp [objSetFields, hp, List.lookup]
    · have hbeq : (k == p.1) = false := beq_eq_false_iff_ne.mpr (fun h => hp h.symm)
      simp only [objSetFields, if_neg hp, List.lookup, hbeq]
      exact ih

theorem lookup_objSetFields_other (fs : List (String × Json)) (k k' : String) (v : Json)
    (h : k' ≠ k) : (objSetFields fs k v).lookup k' = fs.lookup k' := by
  have hbeq : (k' == k) = false := beq_eq_false_iff_ne.mpr h
  induction fs with
  | nil => simp [objSetFields, List.lookup, hbeq]
  | cons p ps ih =>
    by_cases hp : p.1 = k
    · simp only [objSetFields, if_pos hp, List.lookup, hbeq]
      have : (k' == p.1) = false := by rw [hp]; exact hbeq
      simp [this]
    · simp only [objSetFields, if_neg hp, List.lookup]
      by_cases hcp : k' = p.1
      · simp [hcp]
      · have : (k' == p.1) = false := beq_eq_false_iff_ne.mpr hcp
        simp only [this]
        exact ih

theorem getPy_objSetFields_self (fs : List (String × Json)) (k : String) (v : Json) :
    (Json.obj (objSetFields fs k v)).getPy k = v := by
  simp [Json.getPy, Json.get, lookup_objSetFields_self]

theorem getPy_objSetFields_other (fs : List (String × Json)) (k k' : String) (v : Json)
    (h : k' ≠ k) : (Json.obj (objSetFields fs k v)).getPy k' = (Json.obj fs).getPy k' := by
  simp [Json.getPy, Json.get, lookup_objSetFields_other _ _ _ _ h]

theorem foldl_objSet_obj (adds : List (String × Json)) :
    ∀ fs0, adds.foldl (fun acc p => acc.objSet p.1 p.2) (Json.obj fs0)
      = Json.obj (adds.foldl (fun fs p => objSetFields fs p.1 p.2) fs0) := by
  induction adds with
  | nil => intro fs0; rfl
  | cons a rest ih =>
    intro fs0
    simp only [List.foldl_cons, Json.objSet]
    exact ih _

/-- `mergeObjInto` is field-level folding over the base object's fields. -/
theorem mergeObjInto_eq (base : Json) (adds : List (String × Json)) :
    mergeObjInto base adds = Json.obj (adds.foldl
      (fun fs p => objSetFields fs p.1 p.2)
      (match base with | Json.obj fs => fs | _ => [])) := by
  cases base <;> simp [mergeObjInto, foldl_objSet_obj]

/-! ## Claim C2 — glimpse cache key -/

/-- C2 (code bug): the claim — and both in-repo call sites — use the key
`rlm:glimpse:{run_id}:{glimpse_id}` with
`glimpse_id = SHA256(json_canonical({artifact_id, content_hash, spec}))`,
but `cache.py`'s `make_glimpse_key(artifact_id, content_hash, spec)` builds
`rlm:glimpse:{artifact_id}:{content_hash}:{SHA256(json_canonical(spec))}`.
For the identifiers of a concrete run (`run_id="run-1"`,
`artifact_id="a1"`, `content_hash="hash-a1"`), no hash function, spec or
glimpse id can make the two keys coincide: they already differ inside
their literal prefixes.  (At runtime the two-positional-argument calls in
`examine.py:129/142` and `repl_executor.py:385` do not even reach key
construction: they raise `TypeError: make_glimpse_key() missing 1 required
positional argument: 'spec'`.) -/
theorem c2_theorem (sha256Hex : String → String) (spec : Json) (glimpse_id : String) :
    make_glimpse_key sha256Hex "a1" "hash-a1" spec ≠
      make_glimpse_key_spec "run-1" glimpse_id := by
  intro heq
  have hd : ("rlm:glimpse:a1:hash-a1:".data ++ (sha256Hex (jsonCanonical spec)).data)
          = ("rlm:glimpse:run-1:".data ++ glimpse_id.data) := congrArg String.data heq
  have h13 := congrArg (List.take 13) hd
  rw [List.take_append_of_le_length (by decide),
      List.take_append_of_le_length (by decide)] at h13
  exact absurd h13 (by decide)

/-! ## Claim C7 — oversized assembly program -/

/-- C7 (confirmed): in assembly mode, whenever the serialized size of
`options.program` exceeds `max_program_chars`, `run_program` returns
`status="stopped"` with an empty assembled context and exactly one error
entry of `type="limit_exceeded"`, `limit="max_program_chars"` — for every
executor, so no step execution can have happened. -/
theorem c7_theorem (execFn : Json → AssemblyExecution) (index : CandidateIndex)
    (options : Json) (limits : RunnerLimits)
    (h : ((estimate_program_chars (options.getPy "program") : Nat) : Int) >
      limits.max_program_chars) :
    run_program execFn index options limits = Except.ok
      { status := "stopped", assembled_context := Json.obj [],
        errors := [Json.obj
          [("type", Json.str "limit_exceeded"), ("limit", Json.str "max_program_chars"),
           ("value", Json.int (((estimate_program_chars (options.getPy "program") : Nat) : Int))),
           ("max", Json.int limits.max_program_chars)]],
        events := [], degraded := false } := by
  simp only [run_program]
  rw [if_pos h]

/-- C7 witness: a five-character string program against a three-character
limit stops with the `max_program_chars` limit error. -/
theorem c7_witness :
    ((estimate_program_chars
      ((Json.obj [("program", Json.str "xxxxx")]).getPy "program") : Nat) : Int) > (3 : Int) ∧
    run_program (fun _ => ⟨[], [], [], false⟩) fixtureIndex
      (Json.obj [("program", Json.str "xxxxx")]) { max_program_chars := 3 } = Except.ok
      { status := "stopped", assembled_context := Json.obj [],
        errors := [Json.obj
          [("type", Json.str "limit_exceeded"), ("limit", Json.str "max_program_chars"),
           ("value", Json.int 5), ("max", Json.int 3)]],
        events := [], degraded := false } :=
  ⟨by decide, c7_theorem (fun _ => ⟨[], [], [], false⟩) fixtureIndex
      (Json.obj [("program", Json.str "xxxxx")]) { max_program_chars := 3 } (by decide)⟩

/-! ## Claim C9 — retrieval tokenization -/

/-- C9 (confirmed): `_build_tokens` is a pure function of the query (hence
deterministic), yields at most 12 tokens, and when neither the ASCII
word-run rules nor the CJK window rules produce any token it falls back to
the one-element stripped query, or to the empty list for a
whitespace-only query. -/
theorem c9_theorem (q : String) :
    (build_tokens q).length ≤ 12 ∧
    (iterWordTokens q = [] → iterCjkTokens q = [] →
      build_tokens q = if (pyStrip q).isEmpty then [] else [pyStrip q]) := by
  constructor
  · simp only [build_tokens]
    exact List.length_take_le _ _
  · intro h1 h2
    simp [build_tokens, h1, h2]
    by_cases hs : (pyStrip q).isEmpty <;> simp [hs]

/-- C9 witness: a whitespace-only query produces no word or CJK tokens and
tokenizes to the empty list; a mixed query stays within the cap. -/
theorem c9_witness :
    build_tokens " \t " = [] ∧ (build_tokens "a_bC dEf").length ≤ 12 := by
  refine ⟨?_, ( c9_theorem "a_bC dEf").1⟩
  have h := ( c9_theorem " \t ").2 (by decide) (by decide)
  simpa using h

/-! ## Claim C6 — Mock root-LM determinism -/

/-- C6 (confirmed): the Mock backend is a pure function of its inputs.
With no `options.program` override, `generate_program` emits exactly
`[select([first]), glimpse(first, head, n=800)]` for the first candidate,
and an empty-steps program when there are no candidates;
`generate_final` answers `"Mock answer for: {query}"` unless
`options.final_answer` overrides it (`options.citations` absent, so the
citation copy cannot fail). -/
theorem c6_theorem (index : CandidateIndex) (policy limits options : Json) :
    (∀ c rest, index.candidates = c :: rest → options.getPy "program" = Json.null →
      (mock_generate_program index policy limits options).program.getPy "steps" =
        Json.arr
          [Json.obj [("action", Json.str "select"),
                     ("selected_ids", Json.arr [Json.str c.artifact_id])],
           Json.obj [("action", Json.str "glimpse"),
                     ("artifact_id", Json.str c.artifact_id),
                     ("mode", Json.str "head"), ("n", Json.int 800)]]) ∧
    (index.candidates = [] → options.getPy "program" = Json.null →
      (mock_generate_program index policy limits options).program.getPy "steps" =
        Json.arr []) ∧
    (∀ evidence subcalls, options.getPy "final_answer" = Json.null →
      options.getPy "citations" = Json.null →
      ∃ r, mock_generate_final index evidence subcalls options = Except.ok r ∧
        r.final.getPy "answer" = Json.str ("Mock answer for: " ++ index.query)) ∧
    (∀ evidence subcalls ans, options.getPy "final_answer" = Json.str ans →
      options.getPy "citations" = Json.null →
      ∃ r, mock_generate_final index evidence subcalls options = Except.ok r ∧
        r.final.getPy "answer" = Json.str ans) := by
  refine ⟨?_, ?_, ?_, ?_⟩
  · intro c rest hc hprog
    simp only [mock_generate_program, hprog, hc, if_pos rfl]
    simp [Json.getPy, Json.get, List.lookup]
  · intro hc hprog
    simp only [mock_generate_program, hprog, hc, if_pos rfl]
    simp [Json.getPy, Json.get, List.lookup]
  · intro evidence subcalls hfa hcit
    have heq : mock_generate_final index evidence subcalls options = Except.ok
        { final := Json.obj
            [("answer", Json.str ("Mock answer for: " ++ index.query)),
             ("citations", Json.arr []),
             ("evidence_count", Json.int ((evidence.length : Int))),
             ("subcall_count", Json.int ((subcalls.length : Int)))],
          meta := Json.obj [("mode", Json.str "mock")],
          raw := Json.obj [("mock", Json.bool true)] } := by
      simp only [mock_generate_final, hfa, hcit, if_pos rfl, Json.pyOr,
        Json.pyTruthy, Json.pyFalsy, pyListOf]
      rfl
    exact ⟨_, heq, by simp [Json.getPy, Json.get, List.lookup]⟩
  · intro evidence subcalls ans hfa hcit
    have hne : options.getPy "final_answer" ≠ Json.null := by rw [hfa]; intro h; cases h
    have heq : mock_generate_final index evidence subcalls options = Except.ok
        { final := Json.obj
            [("answer", Json.str ans),
             ("citations", Json.arr []),
             ("evidence_count", Json.int ((evidence.length : Int))),
             ("subcall_count", Json.int ((subcalls.length : Int)))],
          meta := Json.obj [("mode", Json.str "mock")],
          raw := Json.obj [("mock", Json.bool true)] } := by
      simp only [mock_generate_final, hfa, hcit, if_neg hne, Json.pyOr,
        Json.pyTruthy, Json.pyFalsy, pyListOf]
      rfl
    exact ⟨_, heq, by simp [Json.getPy, Json.get, List.lookup]⟩

/-- C6 witness: the fixture index with one candidate `a1` and empty
options yields exactly the select+glimpse program and the mock answer. -/
theorem c6_witness :
    (mock_generate_program fixtureIndex (Json.obj []) (Json.obj [])
        (Json.obj [])).program.getPy "steps" =
      Json.arr
        [Json.obj [("action", Json.str "select"),
                   ("selected_ids", Json.arr [Json.str "a1"])],
         Json.obj [("action", Json.str "glimpse"), ("artifact_id", Json.str "a1"),
                   ("mode", Json.str "head"), ("n", Json.int 800)]] ∧
    (∃ r, mock_generate_final fixtureIndex [] [] (Json.obj []) = Except.ok r ∧
      r.final.getPy "answer" = Json.str "Mock answer for: what is this?") := by
  constructor
  · exact (c6_theorem fixtureIndex (Json.obj []) (Json.obj []) (Json.obj [])).1
      { artifact_id := "a1", content_hash := some "hash-a1",
        content_preview := "preview", base_score := 1 } [] (by decide) (by decide)
  · exact (c6_theorem fixtureIndex (Json.obj []) (Json.obj []) (Json.obj [])).2.2.1
      [] [] (by decide) (by decide)

/-! ## Claim C5 — tolerant response parsing -/

/-- C5 counterexample: `generate_final` is not total.  On the raw model
output `"{oops}"` the direct parse fails, brace extraction yields
`"{oops}"` itself, and the second, unguarded `json.loads` raises — the
`JSONDecodeError` escapes `_extract_json_payload` and `generate_final`
instead of producing a `parsed=false` result. -/
theorem c5_counterexample :
    extract_json_payload "\x7boops\x7d" = Except.error "json.decoder.JSONDecodeError" ∧
    vllm_generate_final (fun _ => Except.ok "\x7boops\x7d") fixtureIndex [] []
        (Json.obj []) = Except.error "json.decoder.JSONDecodeError" := by
  exact ⟨by rfl, by rfl⟩

/-- C5 as amended: when (after fence stripping) the direct parse fails and
no `{…}` substring exists, `generate_final` returns a `parsed=false`
result whose final is `{answer: raw_text.strip(), citations: []}` — the
answer is the *stripped* raw text — and `generate_program` returns the
empty-steps shell with `parsed=false`; but when brace extraction finds a
substring that is not valid JSON, the decode error propagates and
`generate_final` raises. -/
theorem c5_amended (gen : String → Except String String) (raw : String)
    (index : CandidateIndex) (evidence subcalls : List Json)
    (policy limits options : Json)
    (hgen : ∀ p, gen p = Except.ok raw) :
    (extract_json_payload raw = Except.ok none →
      vllm_generate_final gen index evidence subcalls options = Except.ok
        { final := Json.obj [("answer", Json.str (pyStrip raw)),
                             ("citations", Json.arr [])],
          meta := Json.obj [("mode", Json.str "vllm"), ("parsed", Json.bool false)],
          raw := Json.obj [("text", Json.str raw)] } ∧
      vllm_generate_program gen index policy limits options = Except.ok
        { program := programShell index policy limits,
          meta := Json.obj [("mode", Json.str "vllm"), ("parsed", Json.bool false)],
          raw := Json.obj [("text", Json.str raw)] }) ∧
    (∀ m, extract_json_payload raw = Except.error m →
      vllm_generate_final gen index evidence subcalls options = Except.error m) := by
  constructor
  · intro hparse
    constructor
    · simp [vllm_generate_final, hgen, hparse, bind, Except.bind]
    · simp [vllm_generate_program, hgen, hparse, bind, Except.bind]
  · intro m hparse
    simp [vllm_generate_final, hgen, hparse, bind, Except.bind]

/-- C5 witness: the unparseable, brace-free output `" no json here "`
yields the stripped-answer `parsed=false` shell. -/
theorem c5_witness :
    extract_json_payload " no json here " = Except.ok none ∧
    vllm_generate_final (fun _ => Except.ok " no json here ") fixtureIndex [] []
        (Json.obj []) = Except.ok
      { final := Json.obj [("answer", Json.str "no json here"),
                           ("citations", Json.arr [])],
        meta := Json.obj [("mode", Json.str "vllm"), ("parsed", Json.bool false)],
        raw := Json.obj [("text", Json.str " no json here ")] } := by
  refine ⟨by rfl, ?_⟩
  have h := (c5_amended (fun _ => Except.ok " no json here ") " no json here "
    fixtureIndex [] [] (Json.obj []) (Json.obj []) (Json.obj [])
    (fun _ => rfl)).1 (by rfl)
  exact h.1

/-! ## Claim C8 — range glimpse extraction -/

/-- Python slices ignore everything beyond the clamped bounds: two
non-negative index pairs with the same `min _ len` clamps slice
identically. -/
theorem pySlice_eq_of_clamp_eq (text : String) (a b a' b' : Int)
    (ha : 0 ≤ a) (hb : 0 ≤ b) (ha' : 0 ≤ a') (hb' : 0 ≤ b')
    (h1 : min a ((text.length : Int)) = min a' ((text.length : Int)))
    (h2 : min b ((text.length : Int)) = min b' ((text.length : Int))) :
    pySlice text a b = pySlice text a' b' := by
  unfold pySlice
  congr 1
  simp only [pySliceList]
  rw [if_neg (not_lt.mpr ha), if_neg (not_lt.mpr hb),
      if_neg (not_lt.mpr ha'), if_neg (not_lt.mpr hb')]
  rw [show (text.data.length : Int) = (text.length : Int) from rfl, h1, h2]

/-- C8 counterexample: on `text="abcde"`, `start=10`, `end=3` the code
swaps to `(3, 10)` and records span `{start: 3, end: 10}` with `end`
beyond `len(text)=5`, while the claim's procedure — which clamps `start`
into `[0, len(text)]` — yields span `{start: 3, end: 5}`; the two
extractions disagree. -/
theorem c8_counterexample :
    extract_range "abcde" 10 3 =
      ("de", Json.obj [("mode", Json.str "range"), ("start", Json.int 3),
                       ("end", Json.int 10)]) ∧
    extract_range_claimed "abcde" 10 3 =
      ("de", Json.obj [("mode", Json.str "range"), ("start", Json.int 3),
                       ("end", Json.int 5)]) ∧
    extract_range "abcde" 10 3 ≠ extract_range_claimed "abcde" 10 3 := by
  refine ⟨by rfl, by rfl, by decide⟩

/-- C8 as amended: `_extract_range` clamps `start` only from below at 0
(never down to `len(text)`), replaces `end` by `len(text)` when
non-positive or too large, swaps the bounds when inverted, and returns the
Python slice `text[start:end]` together with span `{start, end}` whose
`end` may exceed `len(text)`.  The returned excerpt nevertheless always
agrees with the fully-clamped procedure of the claim — only the recorded
span differs. -/
theorem c8_amended (text : String) (start0 end0 : Int) :
    (extract_range text start0 end0 =
      (let n : Int := (text.length : Int)
       let start1 := if start0 < 0 then 0 else start0
       let end1 := if end0 ≤ 0 ∨ end0 > n then n else end0
       let start2 := if end1 < start1 then end1 else start1
       let end2 := if end1 < start1 then start1 else end1
       (pySlice text start2 end2,
        Json.obj [("mode", Json.str "range"), ("start", Json.int start2),
                  ("end", Json.int end2)]))) ∧
    (extract_range text start0 end0).1 = (extract_range_claimed text start0 end0).1 := by
  constructor
  · simp only [extract_range]
    split_ifs <;> rfl
  · simp only [extract_range, extract_range_claimed]
    have hn0 : (0 : Int) ≤ (text.length : Int) := by omega
    generalize he1g :
      (if end0 ≤ 0 ∨ end0 > (text.length : Int) then (text.length : Int) else end0) = e1
    have he1b : 0 ≤ e1 ∧ e1 ≤ (text.length : Int) := by
      rw [← he1g]; split_ifs <;> omega
    by_cases hs : start0 < 0
    · rw [if_pos hs, show max 0 (min start0 ((text.length : Int))) = 0 by omega]
    · rw [if_neg hs]
      by_cases hsn : start0 ≤ (text.length : Int)
      · rw [show max 0 (min start0 ((text.length : Int))) = start0 by omega]
      · rw [show max 0 (min start0 ((text.length : Int))) = (text.length : Int)
          by omega]
        rw [if_pos (show e1 < start0 by omega)]
        by_cases hlt : e1 < (text.length : Int)
        · rw [if_pos hlt]
          exact pySlice_eq_of_clamp_eq text _ _ _ _ (by omega) (by omega)
            (by omega) hn0 rfl (by omega)
        · rw [if_neg hlt]
          exact pySlice_eq_of_clamp_eq text _ _ _ _ (by omega) (by omega)
            hn0 (by omega) (by omega) (by omega)

/-- C8 witness: an in-range request slices exactly and a below-zero start
clamps to 0 (instantiating the amended characterization). -/
theorem c8_witness :
    extract_range "abcde" 1 3 =
      ("bc", Json.obj [("mode", Json.str "range"), ("start", Json.int 1),
                       ("end", Json.int 3)]) ∧
    (extract_range "abcde" (-7) 0).1 = (extract_range_claimed "abcde" (-7) 0).1 := by
  constructor
  · have h := (c8_amended "abcde" 1 3).1
    simpa using h
  · exact (c8_amended "abcde" (-7) 0).2

/-! ## Claim C4 — chat-completions retry policy -/

/-- A failure the retry loop does retry on: not a timeout, and either a
network/decoding error without an HTTP status or a 5xx status. -/
def retryableFailure (e : HttpFailure) : Prop :=
  e.isTimeout = false ∧ (match e.httpCode with | some c => 500 ≤ c | none => True)

theorem postJsonLoop_retryAll (retry : RetryPolicy)
    (oracle : Nat → Except HttpFailure Json) (f : Nat → HttpFailure)
    (hor : ∀ i, i ≤ retry.max_retries → oracle i = Except.error (f i))
    (hre : ∀ i, i ≤ retry.max_retries → retryableFailure (f i)) :
    ∀ (k attempt : Nat) (lastErr : Option HttpFailure),
      attempt + k = retry.max_retries →
      postJsonLoop retry oracle lastErr attempt (k + 1) =
        (Except.error (compositeError (some (f retry.max_retries))),
         (List.range' attempt k).flatMap
             (fun i => [PostAction.attempt i, PostAction.sleep retry.backoff_s])
           ++ [PostAction.attempt retry.max_retries]) := by
  have hcode : ∀ i, i ≤ retry.max_retries →
      ((f i).httpCode.elim false (fun code => decide (code < 500))) = false := by
    intro i hi
    obtain ⟨_, hc⟩ := hre i hi
    cases hcc : (f i).httpCode with
    | none => simp [Option.elim]
    | some c =>
      rw [hcc] at hc
      simp only [Option.elim]
      exact decide_eq_false (by omega)
  intro k
  induction k with
  | zero =>
    intro attempt lastErr hsum
    have hA : attempt = retry.max_retries := by omega
    have ho := hor attempt (by omega)
    obtain ⟨ht, _⟩ := hre attempt (by omega)
    have hcd := hcode attempt (by omega)
    subst hA
    conv_lhs => rw [postJsonLoop]
    rw [ho]
    simp only [ht, Bool.false_eq_true, if_false]
    rw [if_neg (by simp [hcd]), if_pos (Nat.le_refl _)]
    simp [List.range']
  | succ k ih =>
    intro attempt lastErr hsum
    have hlt : attempt < retry.max_retries := by omega
    have ho := hor attempt (Nat.le_of_lt hlt)
    obtain ⟨ht, _⟩ := hre attempt (Nat.le_of_lt hlt)
    have step : postJsonLoop retry oracle lastErr attempt (k + 1 + 1) =
        (let p := postJsonLoop retry oracle (some (f attempt)) (attempt + 1) (k + 1)
         (p.1, PostAction.attempt attempt :: PostAction.sleep retry.backoff_s :: p.2)) := by
      conv_lhs => rw [postJsonLoop]
      rw [ho]
      simp only [ht, Bool.false_eq_true, if_false]
      rw [if_neg (by simp [hcode attempt (Nat.le_of_lt hlt)]),
          if_neg (Nat.not_le_of_lt hlt)]
    rw [step, ih (attempt + 1) (some (f attempt)) (by omega)]
    simp [List.range']

/-- C4 (confirmed): `_post_json` never retries after a timeout or after an
HTTP response below 500 (one attempt, no sleep, composite failure); on
failures that are 5xx or carry no HTTP status (network or decode errors)
it retries until `max_retries` is exhausted, sleeping `backoff_s` between
consecutive attempts, and then raises the composite error wrapping the
last underlying failure. -/
theorem c4_theorem (retry : RetryPolicy) (oracle : Nat → Except HttpFailure Json) :
    (∀ e, oracle 0 = Except.error e → e.isTimeout = true →
      postJson retry oracle =
        (Except.error (compositeError (some e)), [PostAction.attempt 0])) ∧
    (∀ e c, oracle 0 = Except.error e → e.isTimeout = false → e.httpCode = some c →
      c < 500 →
      postJson retry oracle =
        (Except.error (compositeError (some e)), [PostAction.attempt 0])) ∧
    (∀ f : Nat → HttpFailure,
      (∀ i, i ≤ retry.max_retries → oracle i = Except.error (f i)) →
      (∀ i, i ≤ retry.max_retries → retryableFailure (f i)) →
      postJson retry oracle =
        (Except.error (compositeError (some (f retry.max_retries))),
         (List.range' 0 retry.max_retries).flatMap
             (fun i => [PostAction.attempt i, PostAction.sleep retry.backoff_s])
           ++ [PostAction.attempt retry.max_retries])) := by
  refine ⟨?_, ?_, ?_⟩
  · intro e ho ht
    simp [postJson, postJsonLoop, ho, ht]
  · intro e c ho ht hcode hlt
    simp [postJson, postJsonLoop, ho, ht, hcode, Option.elim, hlt]
  · intro f hor hre
    exact postJsonLoop_retryAll retry oracle f hor hre retry.max_retries 0 none
      (by omega)

/-- C4 witness: with `max_retries = 2`, a timeout stops after one attempt;
an always-503 endpoint is tried three times with two back-off sleeps and
then fails with the composite error. -/
theorem c4_witness :
    postJson { max_retries := 2 } (fun _ => Except.error ⟨true, none, "timed out"⟩) =
      (Except.error ("vLLM chat.completions failed after retries: timed out",
        some ⟨true, none, "timed out"⟩), [PostAction.attempt 0]) ∧
    postJson { max_retries := 2 } (fun _ => Except.error ⟨false, some 503, "bad gateway"⟩) =
      (Except.error ("vLLM chat.completions failed after retries: bad gateway",
        some ⟨false, some 503, "bad gateway"⟩),
       [PostAction.attempt 0, PostAction.sleep (mkRat 1 2),
        PostAction.attempt 1, PostAction.sleep (mkRat 1 2),
        PostAction.attempt 2]) := by
  constructor
  · exact (c4_theorem { max_retries := 2 }
      (fun _ => Except.error ⟨true, none, "timed out"⟩)).1
      ⟨true, none, "timed out"⟩ rfl rfl
  · have h := (c4_theorem { max_retries := 2 }
      (fun _ => Except.error ⟨false, some 503, "bad gateway"⟩)).2.2
      (fun _ => ⟨false, some 503, "bad gateway"⟩)
      (fun _ _ => rfl) (fun _ _ => ⟨rfl, show (500 : Nat) ≤ 503 by decide⟩)
    simpa [compositeError] using h

/-! ## Claim C3 — decision-backend fallback to Mock -/

/-- When the options override neither the final answer nor the citations,
`MockRootLM.generate_final` succeeds with the canonical mock answer. -/
theorem mock_generate_final_default (index : CandidateIndex)
    (evidence subcalls : List Json) (options : Json)
    (hfa : options.getPy "final_answer" = Json.null)
    (hcit : options.getPy "citations" = Json.null) :
    mock_generate_final index evidence subcalls options = Except.ok
      { final := Json.obj
          [("answer", Json.str ("Mock answer for: " ++ index.query)),
           ("citations", Json.arr []),
           ("evidence_count", Json.int (evidence.length : Int)),
           ("subcall_count", Json.int (subcalls.length : Int))],
        meta := Json.obj [("mode", Json.str "mock")],
        raw := Json.obj [("mock", Json.bool true)] } := by
  simp only [mock_generate_final, hfa, hcit, if_pos rfl, Json.pyOr,
    Json.pyTruthy, Json.pyFalsy, pyListOf]
  rfl

/-- When every HTTP call fails, `VllmRootLM.generate_final` raises with
the underlying message. -/
theorem vllm_generate_final_error (gen : String → Except String String) (e : String)
    (index : CandidateIndex) (evidence subcalls : List Json) (options : Json)
    (hgen : ∀ p, gen p = Except.error e) :
    vllm_generate_final gen index evidence subcalls options = Except.error e := by
  simp [vllm_generate_final, hgen, bind, Except.bind]

/-- A `.2 = none` result of `_resolve_decision_vllm_config` means the
config resolved. -/
theorem resolve_decision_some (st : AppSettings) (options : Json)
    (h : (resolve_decision_vllm_config st options).2 = none) :
    ∃ c, resolve_decision_vllm_config st options = (some c, none) := by
  by_cases hm : (resolve_decision_vllm_config st options).1.isSome
  · obtain ⟨c, hc⟩ := Option.isSome_iff_exists.mp hm
    exact ⟨c, by rw [Prod.ext_iff]; exact ⟨hc, h⟩⟩
  · exfalso
    revert hm h
    simp only [resolve_decision_vllm_config]
    split_ifs <;> simp

/-- The round-3 step under an always-failing vLLM decision backend: the
status and errors are untouched, the Mock answer is produced, and
`meta.round3` records `fallback_reason`/`fallback_from`. -/
theorem round3_vllm_fallback (gen : String → Except String String) (e : String)
    (index : CandidateIndex) (options : Json) (st2 : RunState)
    (hgen : ∀ p, gen p = Except.error e)
    (hfa : options.getPy "final_answer" = Json.null)
    (hcit : options.getPy "citations" = Json.null) :
    (round3Step "vllm" (vllmRootLM gen) none index options st2).status = st2.status ∧
    (round3Step "vllm" (vllmRootLM gen) none index options st2).errors = st2.errors ∧
    (round3Step "vllm" (vllmRootLM gen) none index options st2).final_answer =
      some ("Mock answer for: " ++ index.query) ∧
    ((Json.obj (round3Step "vllm" (vllmRootLM gen) none index options st2).meta).getPy
        "round3").getPy "fallback_reason" =
      Json.str ("vllm_request_failed: " ++ e) ∧
    ((Json.obj (round3Step "vllm" (vllmRootLM gen) none index options st2).meta).getPy
        "round3").getPy "fallback_from" = Json.str "vllm" := by
  have hverr : vllm_generate_final gen index
      (build_evidence st2.events st2.glimpses st2.subcalls) st2.subcalls options
      = Except.error e := by
    simp [vllm_generate_final, hgen, bind, Except.bind]
  have hfinal := mock_generate_final_default index
    (build_evidence st2.events st2.glimpses st2.subcalls) st2.subcalls options hfa hcit
  simp only [round3Step, vllmRootLM, mockRootLM, hverr, mergeObjInto]
  simp only [if_true]
  rw [hfinal]
  simp [Json.getPy, Json.get, List.lookup, Json.pyOr, Json.pyTruthy, Json.pyFalsy,
    pyListOf, Json.pyStr, Json.objSet, objSetFields, lookup_objSetFields_self]

/-- C3 (confirmed): when the decision backend resolves to the HTTP-Chat
(vllm) client and every HTTP call raises, a run that reaches round 3
records `meta.round3.fallback_reason = "vllm_request_failed: …"` (which
begins with `"vllm_request_failed:"`), retries the decision with Mock
(`fallback_from="vllm"`, mock answer), and completes with
`status="ok"` — the decision failure never becomes a round-3 error. -/
theorem c3_theorem (env : RunEnv) (index : CandidateIndex) (options : Json)
    (rootlm : Option RootLMClient) (injectedExecutor : Option ExecutorFn) (e : String)
    (hbackend : normName (((options.getPy "rootlm_backend").pyOr
        ((Json.str env.settings.rlm_rootlm_backend).pyOr (Json.str "mock")))).pyStr
      = "vllm")
    (hconfig : (resolve_decision_vllm_config env.settings options).2 = none)
    (hgen : ∀ p, env.vllmGenerate p = Except.error e)
    (hfa : options.getPy "final_answer" = Json.null)
    (hcit : options.getPy "citations" = Json.null)
    (hlen : (run_rlm env index options rootlm injectedExecutor).2.length = 3) :
    (run_rlm env index options rootlm injectedExecutor).1.status = "ok" ∧
    (run_rlm env index options rootlm injectedExecutor).1.final_answer =
      some ("Mock answer for: " ++ index.query) ∧
    ∃ p, (run_rlm env index options rootlm injectedExecutor).2.getLast? = some p ∧
      p.status = "ok" ∧
      (p.meta.getPy "round3").getPy "fallback_reason" =
        Json.str ("vllm_request_failed: " ++ e) ∧
      (∃ rest, "vllm_request_failed: " ++ e = "vllm_request_failed:" ++ rest) ∧
      (p.meta.getPy "round3").getPy "fallback_from" = Json.str "vllm" := by
  obtain ⟨c, hc⟩ := resolve_decision_some env.settings options hconfig
  have hsel : selectDecisionBackend env options =
      ("vllm", vllmRootLM env.vllmGenerate, none) := by
    simp [selectDecisionBackend, hbackend, hc]
  simp only [run_rlm, hsel] at hlen ⊢
  split_ifs at hlen ⊢ with h1 h2
  · simp at hlen
  · simp at hlen
  · rw [not_not] at h2
    obtain ⟨hs, he, hfin, hfr, hff⟩ := round3_vllm_fallback env.vllmGenerate e index
      options _ hgen hfa hcit
    refine ⟨?_, ?_, ?_⟩
    · show (round3Step _ _ _ _ _ _).status = "ok"
      rw [hs, h2]
    · exact hfin
    · refine ⟨_, rfl, ?_, ?_, ⟨" " ++ e, rfl⟩, ?_⟩
      · show (round3Step _ _ _ _ _ _).status = "ok"
        rw [hs, h2]
      · exact hfr
      · exact hff

/-- C3 witness: the fixture run with an unreachable vLLM endpoint reaches
round 3, falls back to Mock and finishes with status `"ok"`. -/
theorem c3_witness :
    (run_rlm fixtureEnv fixtureIndex fixtureVllmOptions none none).1.status = "ok" ∧
    (run_rlm fixtureEnv fixtureIndex fixtureVllmOptions none none).1.final_answer =
      some ("Mock answer for: " ++ fixtureIndex.query) ∧
    ∃ p, (run_rlm fixtureEnv fixtureIndex fixtureVllmOptions none none).2.getLast?
        = some p ∧
      p.status = "ok" ∧
      (p.meta.getPy "round3").getPy "fallback_reason" =
        Json.str ("vllm_request_failed: " ++ "connection refused") ∧
      (∃ rest, "vllm_request_failed: " ++ "connection refused"
        = "vllm_request_failed:" ++ rest) ∧
      (p.meta.getPy "round3").getPy "fallback_from" = Json.str "vllm" :=
  c3_theorem fixtureEnv fixtureIndex fixtureVllmOptions none none "connection refused"
    (by decide) (by decide) (fun p => rfl) (by rfl) (by rfl) (by rfl)

/-! ## Claim C1 — status/errors consistency of persisted payloads -/

/-- Every error entry `_select_executor` adds (starting from no errors) has
stage `"executor_init"`. -/
theorem select_executor_errors_stage (inj : Option ExecutorFn) (env : RunEnv)
    (options : Json) (meta : List (String × Json)) :
    ∀ err ∈ (select_executor inj env options [] meta).2.1,
      err.getPy "stage" = Json.str "executor_init" := by
  intro err herr
  cases inj with
  | some e => simp [select_executor] at herr
  | none =>
    simp only [select_executor] at herr
    split_ifs at herr with h1 h2
    · simp at herr
    · simp at herr
    · rw [List.nil_append, List.mem_singleton] at herr
      subst herr
      rfl

/-- Round 1 either leaves status and errors unchanged or sets
`status="error"` while appending one error entry. -/
theorem round1_cases (plan : RootLMClient) (index : CandidateIndex) (options : Json)
    (st : RunState) :
    ((round1Step plan index options st).status = st.status ∧
     (round1Step plan index options st).errors = st.errors) ∨
    ((round1Step plan index options st).status = "error" ∧
     ∃ e, (round1Step plan index options st).errors = st.errors ++ [e]) := by
  simp only [round1Step]
  split
  · exact Or.inl ⟨rfl, rfl⟩
  · exact Or.inr ⟨rfl, _, rfl⟩

/-- Round 2 either appends an error entry with `status="error"`, or keeps
the errors and either keeps the status or records the resulting status
under `meta.round2.status`. -/
theorem round2_cases (f : ExecutorFn) (index : CandidateIndex) (options : Json)
    (st : RunState) :
    ((round2Step f index options st).errors = st.errors ∧
      ((round2Step f index options st).status = st.status ∨
       ((Json.obj (round2Step f index options st).meta).getPy "round2").getPy "status"
         = Json.str (round2Step f index options st).status)) ∨
    ((round2Step f index options st).status = "error" ∧
     ∃ e, (round2Step f index options st).errors = st.errors ++ [e]) := by
  simp only [round2Step]
  split
  · exact Or.inr ⟨rfl, _, rfl⟩
  · rename_i execution heq1
    split
    · exact Or.inr ⟨rfl, _, rfl⟩
    · dsimp only
      refine Or.inl ⟨rfl, ?_⟩
      by_cases hemp : ((normalize_execution execution).2.2.2.2.1).isEmpty = true
      · exact Or.inl (if_pos hemp)
      · refine Or.inr ?_
        dsimp only
        rw [if_neg hemp, getPy_objSetFields_self, mergeObjInto_eq]
        simp only [List.foldl]
        rw [getPy_objSetFields_other _ _ _ _ (by decide), getPy_objSetFields_self]

/-- Round 3 either leaves status and errors unchanged or sets
`status="error"` while appending one error entry. -/
theorem round3_cases (dm : String) (dc : RootLMClient) (fb : Option String)
    (index : CandidateIndex) (options : Json) (st : RunState) :
    ((round3Step dm dc fb index options st).status = st.status ∧
     (round3Step dm dc fb index options st).errors = st.errors) ∨
    ((round3Step dm dc fb index options st).status = "error" ∧
     ∃ e, (round3Step dm dc fb index options st).errors = st.errors ++ [e]) := by
  simp only [round3Step]
  repeat' split
  all_goals
    first
    | exact Or.inl ⟨rfl, rfl⟩
    | exact Or.inr ⟨rfl, _, rfl⟩

/-- C1 counterexample: a run whose program override holds one step with an
unsupported action persists a final payload with `status="error"` and
`errors=[]`, violating the claimed `status="error" ⇒ errors ≠ []`. -/
theorem c1_counterexample :
    ∃ p ∈ (run_rlm fixtureEnv fixtureIndex fixtureBadStepOptions none none).2,
      p.status = "error" ∧ p.errors = [] ∧ ¬ payloadClaimedConsistent p :=
  ⟨(run_rlm fixtureEnv fixtureIndex fixtureBadStepOptions none none).2.getD 1
    (RunState.payload {}), by decide, rfl, rfl, fun hc => hc.1 rfl rfl⟩

/-- C1 (corrected): every persisted payload of every run satisfies the
weaker consistency `payloadConsistent`: an `"ok"` payload's errors are all
`stage="executor_init"` entries (so they may be non-empty after an
executor-import fallback), and an `"error"` payload either carries errors
or records the executor's failing status under `meta.round2.status` (the
per-step-failure path persists `status="error"` with `errors=[]`). -/
theorem c1_amended (env : RunEnv) (index : CandidateIndex) (options : Json)
    (rootlm : Option RootLMClient) (injectedExecutor : Option ExecutorFn) :
    ∀ p ∈ (run_rlm env index options rootlm injectedExecutor).2,
      payloadConsistent p := by
  intro p hp
  simp only [run_rlm] at hp
  split_ifs at hp with h1 h2
  · simp only [List.mem_singleton] at hp
    subst hp
    simp only [payloadConsistent, RunState.payload]
    rcases round1_cases (rootlm.getD mockRootLM) index options _ with ⟨hs, he⟩ | ⟨hs, e, he⟩
    · exact absurd hs h1
    · refine ⟨fun hok => absurd (hs.symm.trans hok) (by decide), fun _ => Or.inl ?_⟩
      rw [he]
      simp
  · rw [not_not] at h1
    simp only [List.mem_cons, List.mem_singleton, List.not_mem_nil, or_false] at hp
    rcases hp with hp | hp
    · subst hp
      simp only [payloadConsistent, RunState.payload]
      refine ⟨fun _ => ?_, fun herr => absurd (h1.symm.trans herr) (by decide)⟩
      rcases round1_cases (rootlm.getD mockRootLM) index options _ with ⟨_, he⟩ | ⟨hs, _, _⟩
      · rw [he]
        exact select_executor_errors_stage injectedExecutor env options _
      · exact absurd (hs.symm.trans h1) (by decide)
    · subst hp
      simp only [payloadConsistent, RunState.payload]
      rcases round2_cases _ index options _ with ⟨he, hd⟩ | ⟨hs, e, he⟩
      · refine ⟨fun hok => absurd hok h2, fun herr => ?_⟩
        rcases hd with hd | hd
        · rw [hd, h1] at herr
          exact absurd herr (by decide)
        · right
          rw [hd, herr]
      · refine ⟨fun hok => absurd (hs.symm.trans hok) (by decide), fun _ => Or.inl ?_⟩
        rw [he]
        simp
  · rw [not_not] at h1 h2
    simp only [List.mem_cons, List.not_mem_nil, or_false] at hp
    have hcommon : ∀ err ∈ (round1Step (rootlm.getD mockRootLM) index options
        { status := "ok",
          errors := (select_executor injectedExecutor env options []
            [("round0", Json.obj [("candidate_count",
              Json.int ((index.candidates.length : Int)))])]).2.1,
          meta := (select_executor injectedExecutor env options []
            [("round0", Json.obj [("candidate_count",
              Json.int ((index.candidates.length : Int)))])]).2.2 }).errors,
        err.getPy "stage" = Json.str "executor_init" := by
      rcases round1_cases (rootlm.getD mockRootLM) index options _ with ⟨_, he⟩ | ⟨hs, _, _⟩
      · rw [he]
        exact select_executor_errors_stage injectedExecutor env options _
      · exact absurd (hs.symm.trans h1) (by decide)
    have h2errors : ∀ err ∈ (round2Step (select_executor injectedExecutor env options []
          [("round0", Json.obj [("candidate_count",
            Json.int ((index.candidates.length : Int)))])]).1 index options
        (round1Step (rootlm.getD mockRootLM) index options
          { status := "ok",
            errors := (select_executor injectedExecutor env options []
              [("round0", Json.obj [("candidate_count",
                Json.int ((index.candidates.length : Int)))])]).2.1,
            meta := (select_executor injectedExecutor env options []
              [("round0", Json.obj [("candidate_count",
                Json.int ((index.candidates.length : Int)))])]).2.2 })).errors,
        err.getPy "stage" = Json.str "executor_init" := by
      rcases round2_cases _ index options _ with ⟨he, _⟩ | ⟨hs, _, _⟩
      · rw [he]
        exact hcommon
      · exact absurd (hs.symm.trans h2) (by decide)
    rcases hp with hp | hp | hp
    · subst hp
      simp only [payloadConsistent, RunState.payload]
      exact ⟨fun _ => hcommon, fun herr => absurd (h1.symm.trans herr) (by decide)⟩
    · subst hp
      simp only [payloadConsistent, RunState.payload]
      exact ⟨fun _ => h2errors, fun herr => absurd (h2.symm.trans herr) (by decide)⟩
    · subst hp
      simp only [payloadConsistent, RunState.payload]
      rcases round3_cases _ _ _ index options _ with ⟨hs, he⟩ | ⟨hs, e, he⟩
      · refine ⟨fun _ => ?_, fun herr => absurd ((hs.trans h2).symm.trans herr)
          (by decide)⟩
        rw [he]
        exact h2errors
      · refine ⟨fun hok => absurd (hs.symm.trans hok) (by decide), fun _ => Or.inl ?_⟩
        rw [he]
        simp

/-- C10 (confirmed): step-level totality of `PipelineExecutor.execute`.
First, `execute` returns normally exactly when the prologue
`dict(options.get("vars") or {})` conversion does — no per-step exception
ever reaches the caller, for any program.  Second, whenever a step's body
raises (`execStep` returns an error, for any reason: unsupported action,
missing artifact, repository failure), the loop appends exactly one
`status="error"` event carrying that step's index (the loop is entered
with index 1, so indices are 1-based) and the caught message, and — unless
the incremented error count exceeds `max_event_errors`, which sets
`stopped` — continues with the remaining steps. -/
theorem c10_theorem :
    (∀ (env : PipeEnv) (program : Json) (index : CandidateIndex) (options : Json),
      (pipeline_execute env program index options).isOk
        = (pyDictOf ((options.getPy "vars").pyOr (Json.obj []))).isOk) ∧
    (∀ (env : PipeEnv) (candidates : List Candidate) (step : Json) (rest : List Json)
       (stepIndex : Nat) (st : ExecState) (msg : String),
      stepIndex ≤ env.limits.max_steps →
      execStep env candidates st.pvars stepIndex
          (pyLower (pyStrip ((step.getPyD "action" (Json.str "noop")).pyStr))) step
        = Except.error msg →
      execLoop env candidates (step :: rest) stepIndex st =
        if st.errorCount + 1 > env.limits.max_event_errors then
          { st with errorCount := st.errorCount + 1, status := "error", stopped := true,
                    events := st.events ++ [Json.obj
                      [("step", Json.int ((stepIndex : Int))),
                       ("action", Json.str (pyLower (pyStrip
                         ((step.getPyD "action" (Json.str "noop")).pyStr)))),
                       ("status", Json.str "error"), ("error", Json.str msg)]] }
        else
          execLoop env candidates rest (stepIndex + 1)
            { st with errorCount := st.errorCount + 1, status := "error",
                      events := st.events ++ [Json.obj
                        [("step", Json.int ((stepIndex : Int))),
                         ("action", Json.str (pyLower (pyStrip
                           ((step.getPyD "action" (Json.str "noop")).pyStr)))),
                         ("status", Json.str "error"), ("error", Json.str msg)]] }) := by
  constructor
  · intro env program index options
    cases h : pyDictOf ((options.getPy "vars").pyOr (Json.obj [])) with
    | error e => simp [pipeline_execute, h, bind, Except.bind, Except.isOk, Except.toBool]
    | ok vars0 => simp [pipeline_execute, h, bind, Except.bind, Except.isOk, Except.toBool]
  · intro env candidates step rest stepIndex st msg hle hstep
    simp only [execLoop, hstep]
    rw [if_neg (Nat.not_lt.mpr hle)]

/-- C10 witness: a one-step program with an unsupported action — the
executor returns normally and the loop records a single 1-indexed error
event without stopping. -/
theorem c10_witness :
    ((pipeline_execute fixturePipeEnv
        (Json.obj [("steps", Json.arr [fixtureBadStep])]) fixtureIndex
        (Json.obj [])).isOk
      = (pyDictOf (((Json.obj []).getPy "vars").pyOr (Json.obj []))).isOk) ∧
    (1 ≤ fixturePipeEnv.limits.max_steps) ∧
    (execStep fixturePipeEnv fixtureIndex.candidates [] 1
        (pyLower (pyStrip ((fixtureBadStep.getPyD "action" (Json.str "noop")).pyStr)))
        fixtureBadStep
      = Except.error "unsupported action: frobnicate") ∧
    (execLoop fixturePipeEnv fixtureIndex.candidates [fixtureBadStep] 1 {} =
      { events := [Json.obj
          [("step", Json.int 1), ("action", Json.str "frobnicate"),
           ("status", Json.str "error"),
           ("error", Json.str "unsupported action: frobnicate")]],
        glimpses := [], pvars := [], status := "error", errorCount := 1,
        stopped := false }) :=
  ⟨c10_theorem.1 fixturePipeEnv (Json.obj [("steps", Json.arr [fixtureBadStep])])
      fixtureIndex (Json.obj []),
   by decide,
   by rfl,
   (c10_theorem.2 fixturePipeEnv fixtureIndex.candidates fixtureBadStep [] 1 {}
      "unsupported action: frobnicate" (by decide) (by rfl)).trans (by rfl)⟩

/-- C1 witness: the first persisted payload of the default fixture run
satisfies the amended consistency. -/
theorem c1_witness :
    (run_rlm fixtureEnv fixtureIndex (Json.obj []) none none).2.getD 0
        (RunState.payload {})
      ∈ (run_rlm fixtureEnv fixtureIndex (Json.obj []) none none).2 ∧
    payloadConsistent ((run_rlm fixtureEnv fixtureIndex (Json.obj []) none none).2.getD 0
      (RunState.payload {})) :=
  ⟨by decide, c1_amended fixtureEnv fixtureIndex (Json.obj []) none none _ (by decide)⟩

end RlmSpec
